import Mathlib

set_option maxRecDepth 40000
set_option maxHeartbeats 1000000

/-!
# Verification of the chippers CHIP-8 core

A shallow embedding of the `chippers` CHIP-8 interpreter core
(`src/core/src/core.rs`, `src/core/src/instructions.rs`,
`src/core/src/interpreter.rs`) together with theorems settling the frozen
claims about the natural-language specification.

Modelling conventions:
* machine integers are `Nat` with explicit `% 256` / `% 65536` where the
  source wraps (`wrapping_add`, `overflowing_add/sub`, u16 arithmetic);
* `Ram` is a `List Nat` of length 4096, `Screen` a `List Bool` of length
  2048 (row-major, 32 rows of 64), `VariableRegisters` a `List Nat` of
  length 16;
* Rust panics that are reachable during a `step` (array index out of
  range, `Stack::pop` on an empty stack via `.unwrap()`, and the
  `unreachable!` in `decode`) are modelled by the `ExecResult.panic`
  constructor, which carries the machine state as mutated up to the point
  of the panic;
* variable-register indices produced by `decode` are opcode nibbles and
  hence `< 16`, so register reads use `List.getD` (the out-of-range
  default is never exercised for decoded instructions) and register
  writes use `List.set`;
* the `#[cfg(feature = "modern")]` compile-time quirk toggle is modelled
  by a `modern : Bool` parameter on `execute`/`step`; the `Instruction`
  type carries both cfg-dependent fields (`JumpOffset.register` is the
  modern-only field, `ShiftRight`/`ShiftLeft` `register_y` the
  legacy-only field), and `execute` consults them exactly in the mode
  whose cfg includes them;
* `OsRng.gen::<u8>()` in `RandomAnd` is modelled by an extra
  `randomByte` argument supplied by the caller of `execute`/`step`.
-/

namespace Chippers


/-! ## Definitions: shallow embedding of the chippers core -/

/-- `TimerState` from core.rs: the two-state timer lifecycle. -/
inductive TimerState where
  | Zero : TimerState
  | AboveZero : TimerState
deriving DecidableEq

/-- `Timer` from core.rs: an 8-bit counter value plus a lifecycle state. -/
structure Timer where
  value : Nat
  state : TimerState
deriving DecidableEq

/-- `Timer::new`: value 0, state `AboveZero`. -/
def Timer.new : Timer := { value := 0, state := TimerState.AboveZero }

/-- `Timer::decrement`: no-op at 0; at 1 the value drops to 0 and the state
becomes `Zero`; otherwise only the value is decremented. -/
def Timer.decrement (t : Timer) : Timer :=
  match t.value with
  | 0 => t
  | 1 => { value := 0, state := TimerState.Zero }
  | _ => { t with value := t.value - 1 }

/-- `Timer::reset`: sets the value to 60, leaving the state untouched. -/
def Timer.reset (t : Timer) : Timer := { t with value := 60 }

/-- `KeyState` from interpreter.rs. -/
inductive KeyState where
  | NotPressed : KeyState
  | Pressed : KeyState
  | AlreadyPressed : KeyState
deriving DecidableEq

/-- `InputHandler` from interpreter.rs.  A `Key` is its 4-bit value
(`impl From<Key> for u8`), modelled as a `Nat < 16`. -/
structure InputHandler where
  keys_state : List KeyState
  waiting : Option Nat
  pressed_and_released : Option Nat
deriving DecidableEq

/-- `FONT_DATA` from core.rs: 16 glyphs of 5 bytes each. -/
def FONT_DATA : List Nat :=
  [ 0xF0, 0x90, 0x90, 0x90, 0xF0,
    0x20, 0x60, 0x20, 0x20, 0x70,
    0xF0, 0x10, 0xF0, 0x80, 0xF0,
    0xF0, 0x10, 0xF0, 0x10, 0xF0,
    0x90, 0x90, 0xF0, 0x10, 0x10,
    0xF0, 0x80, 0xF0, 0x90, 0xF0,
    0xF0, 0x80, 0xF0, 0x90, 0xF0,
    0xF0, 0x10, 0x20, 0x40, 0x40,
    0xF0, 0x90, 0xF0, 0x90, 0xF0,
    0xF0, 0x90, 0xF0, 0x10, 0xF0,
    0xF0, 0x90, 0xF0, 0x90, 0x90,
    0xE0, 0x90, 0xE0, 0x90, 0xE0,
    0xF0, 0x80, 0x80, 0x80, 0xF0,
    0xE0, 0x90, 0x90, 0x90, 0xE0,
    0xF0, 0x80, 0xF0, 0x80, 0xF0,
    0xF0, 0x80, 0xF0, 0x80, 0x80 ]

/-- `Ram::new`: a 4096-byte buffer of zeroes whose first 80 bytes are the
font data (the source zips `FONT_DATA` with the buffer and overwrites the
first 80 cells, which yields exactly the font followed by zeroes). -/
def Ram.new : List Nat := FONT_DATA ++ List.replicate (4096 - 80) 0

/-- `Ram::load_program`: writes `program[i]` into cell `0x200 + i`.  In the
source an oversized program panics on the out-of-range store inside
`Interpreter::new`; that construction-time panic is modelled by
`Interpreter.new` returning `none`. -/
def Ram.load_program : List Nat → Nat → List Nat → List Nat
  | ram, _, [] => ram
  | ram, offset, b :: rest => Ram.load_program (ram.set (0x200 + offset) b) (offset + 1) rest

/-- `Instruction` from instructions.rs.  All operands are `Nat`
(register indices are nibbles, bytes are `< 256`, addresses `< 4096`).
`JumpOffset.register` is the `#[cfg(feature = "modern")]`-only field;
`ShiftRight.register_y` and `ShiftLeft.register_y` are the
`#[cfg(not(feature = "modern"))]`-only fields.  The decoder always fills
them from the same opcode nibbles the respective cfg variant would use;
`execute` reads them only in the matching mode. -/
inductive Instruction where
  | Call (address : Nat)
  | Return
  | Jump (address : Nat)
  | JumpOffset (base_address : Nat) (register : Nat)
  | SkipEqualByte (register : Nat) (byte : Nat)
  | SkipNotEqualByte (register : Nat) (byte : Nat)
  | SkipEqualVariable (register_x : Nat) (register_y : Nat)
  | SkipNotEqualVariable (register_x : Nat) (register_y : Nat)
  | SkipKey (register : Nat)
  | SkipNotKey (register : Nat)
  | SetWithByte (register : Nat) (byte : Nat)
  | SetWithVariable (register_x : Nat) (register_y : Nat)
  | SetIndexWithAddress (address : Nat)
  | SetIndexWithSpriteAddress (register : Nat)
  | AddWithByte (register : Nat) (byte : Nat)
  | AddWithVariable (register_x : Nat) (register_y : Nat)
  | AddIndexWithVariable (register : Nat)
  | SubWithVariable (register_x : Nat) (register_y : Nat)
  | SubWithVariableNot (register_x : Nat) (register_y : Nat)
  | ShiftRight (register_x : Nat) (register_y : Nat)
  | ShiftLeft (register_x : Nat) (register_y : Nat)
  | Or (register_x : Nat) (register_y : Nat)
  | And (register_x : Nat) (register_y : Nat)
  | Xor (register_x : Nat) (register_y : Nat)
  | ClearScreen
  | Draw (register_x : Nat) (register_y : Nat) (n : Nat)
  | SetVariableWithDelayTimer (register : Nat)
  | SetDelayTimer (register : Nat)
  | SetSoundTimer (register : Nat)
  | StoreRegisters (up_to_register : Nat)
  | LoadIntoRegisters (up_to_register : Nat)
  | StoreDecimalConversion (register : Nat)
  | WaitForKey (register : Nat)
  | RandomAnd (register : Nat) (byte : Nat)
  | MachineRoutine (address : Nat)
deriving DecidableEq

/-- The decoder local `let a = (instruction & 0xF000) >> 12` (most
significant nibble). -/
def nibbleA (instruction : Nat) : Nat := (instruction &&& 0xF000) >>> 12

/-- The decoder local `let b = (instruction & 0x0F00) >> 8`. -/
def nibbleB (instruction : Nat) : Nat := (instruction &&& 0x0F00) >>> 8

/-- The decoder local `let c = (instruction & 0x00F0) >> 4`. -/
def nibbleC (instruction : Nat) : Nat := (instruction &&& 0x00F0) >>> 4

/-- The decoder local `let d = instruction & 0x000F` (least significant
nibble). -/
def nibbleD (instruction : Nat) : Nat := instruction &&& 0x000F

/-- `decode` from instructions.rs.  The source has return type
`Instruction` and hits `unreachable!` (a panic, not an error value) on any
opcode matching none of the table's patterns; that panic is modelled by
`none`.  The source's `match (a, b, c, d)` tries its patterns in order and
commits to the first match; it is rendered here as the equivalent
first-match chain of guards, one per pattern row in source order, each
guard constraining exactly the non-wildcard nibbles of its row. -/
def decode (instruction : Nat) : Option Instruction :=
  if nibbleA instruction = 0x0 ∧ nibbleB instruction = 0x0 ∧ nibbleC instruction = 0xE ∧ nibbleD instruction = 0x0 then some Instruction.ClearScreen
  else if nibbleA instruction = 0x0 ∧ nibbleB instruction = 0x0 ∧ nibbleC instruction = 0xE ∧ nibbleD instruction = 0xE then some Instruction.Return
  else if nibbleA instruction = 0x0 then some (Instruction.MachineRoutine (instruction &&& 0x0FFF))
  else if nibbleA instruction = 0x1 then some (Instruction.Jump (instruction &&& 0x0FFF))
  else if nibbleA instruction = 0x2 then some (Instruction.Call (instruction &&& 0x0FFF))
  else if nibbleA instruction = 0x3 then some (Instruction.SkipEqualByte (nibbleB instruction) (instruction &&& 0x00FF))
  else if nibbleA instruction = 0x4 then some (Instruction.SkipNotEqualByte (nibbleB instruction) (instruction &&& 0x00FF))
  else if nibbleA instruction = 0x5 ∧ nibbleD instruction = 0x0 then some (Instruction.SkipEqualVariable (nibbleB instruction) (nibbleC instruction))
  else if nibbleA instruction = 0x6 then some (Instruction.SetWithByte (nibbleB instruction) (instruction &&& 0x00FF))
  else if nibbleA instruction = 0x7 then some (Instruction.AddWithByte (nibbleB instruction) (instruction &&& 0x00FF))
  else if nibbleA instruction = 0x8 ∧ nibbleD instruction = 0x0 then some (Instruction.SetWithVariable (nibbleB instruction) (nibbleC instruction))
  else if nibbleA instruction = 0x8 ∧ nibbleD instruction = 0x1 then some (Instruction.Or (nibbleB instruction) (nibbleC instruction))
  else if nibbleA instruction = 0x8 ∧ nibbleD instruction = 0x2 then some (Instruction.And (nibbleB instruction) (nibbleC instruction))
  else if nibbleA instruction = 0x8 ∧ nibbleD instruction = 0x3 then some (Instruction.Xor (nibbleB instruction) (nibbleC instruction))
  else if nibbleA instruction = 0x8 ∧ nibbleD instruction = 0x4 then some (Instruction.AddWithVariable (nibbleB instruction) (nibbleC instruction))
  else if nibbleA instruction = 0x8 ∧ nibbleD instruction = 0x5 then some (Instruction.SubWithVariable (nibbleB instruction) (nibbleC instruction))
  else if nibbleA instruction = 0x8 ∧ nibbleD instruction = 0x6 then some (Instruction.ShiftRight (nibbleB instruction) (nibbleC instruction))
  else if nibbleA instruction = 0x8 ∧ nibbleD instruction = 0x7 then some (Instruction.SubWithVariableNot (nibbleB instruction) (nibbleC instruction))
  else if nibbleA instruction = 0x8 ∧ nibbleD instruction = 0xE then some (Instruction.ShiftLeft (nibbleB instruction) (nibbleC instruction))
  else if nibbleA instruction = 0x9 ∧ nibbleD instruction = 0x0 then some (Instruction.SkipNotEqualVariable (nibbleB instruction) (nibbleC instruction))
  else if nibbleA instruction = 0xA then some (Instruction.SetIndexWithAddress (instruction &&& 0x0FFF))
  else if nibbleA instruction = 0xB then some (Instruction.JumpOffset (instruction &&& 0x0FFF) (nibbleB instruction))
  else if nibbleA instruction = 0xC then some (Instruction.RandomAnd (nibbleB instruction) (instruction &&& 0x00FF))
  else if nibbleA instruction = 0xD then some (Instruction.Draw (nibbleB instruction) (nibbleC instruction) (nibbleD instruction))
  else if nibbleA instruction = 0xE ∧ nibbleC instruction = 0x9 ∧ nibbleD instruction = 0xE then some (Instruction.SkipKey (nibbleB instruction))
  else if nibbleA instruction = 0xE ∧ nibbleC instruction = 0xA ∧ nibbleD instruction = 0x1 then some (Instruction.SkipNotKey (nibbleB instruction))
  else if nibbleA instruction = 0xF ∧ nibbleC instruction = 0x0 ∧ nibbleD instruction = 0x7 then some (Instruction.SetVariableWithDelayTimer (nibbleB instruction))
  else if nibbleA instruction = 0xF ∧ nibbleC instruction = 0x0 ∧ nibbleD instruction = 0xA then some (Instruction.WaitForKey (nibbleB instruction))
  else if nibbleA instruction = 0xF ∧ nibbleC instruction = 0x1 ∧ nibbleD instruction = 0x5 then some (Instruction.SetDelayTimer (nibbleB instruction))
  else if nibbleA instruction = 0xF ∧ nibbleC instruction = 0x1 ∧ nibbleD instruction = 0x8 then some (Instruction.SetSoundTimer (nibbleB instruction))
  else if nibbleA instruction = 0xF ∧ nibbleC instruction = 0x1 ∧ nibbleD instruction = 0xE then some (Instruction.AddIndexWithVariable (nibbleB instruction))
  else if nibbleA instruction = 0xF ∧ nibbleC instruction = 0x2 ∧ nibbleD instruction = 0x9 then some (Instruction.SetIndexWithSpriteAddress (nibbleB instruction))
  else if nibbleA instruction = 0xF ∧ nibbleC instruction = 0x3 ∧ nibbleD instruction = 0x3 then some (Instruction.StoreDecimalConversion (nibbleB instruction))
  else if nibbleA instruction = 0xF ∧ nibbleC instruction = 0x5 ∧ nibbleD instruction = 0x5 then some (Instruction.StoreRegisters (nibbleB instruction))
  else if nibbleA instruction = 0xF ∧ nibbleC instruction = 0x6 ∧ nibbleD instruction = 0x5 then some (Instruction.LoadIntoRegisters (nibbleB instruction))
  else none

/-- `Interpreter` from interpreter.rs. -/
structure Interpreter where
  ram : List Nat
  screen : List Bool
  variable_registers : List Nat
  index_register : Nat
  program_counter : Nat
  stack : List Nat
  delay_timer : Timer
  sound_timer : Timer
  input_handler : InputHandler
deriving DecidableEq

/-- Reachable Rust panics during `step`, used as the failure tags of
`ExecResult.panic`. -/
inductive PanicReason where
  | decodeFailure : PanicReason
  | stackUnderflow : PanicReason
  | memoryOutOfRange : PanicReason
deriving DecidableEq

/-- Result of (a part of) a `step`: `ok` with the new machine, or `panic`
carrying the machine state as mutated up to the point where the source
panics. -/
inductive ExecResult where
  | ok (m : Interpreter) : ExecResult
  | panic (reason : PanicReason) (m : Interpreter) : ExecResult
deriving DecidableEq

/-- The machine state carried by an `ExecResult` (the state observable at
the end of the step or at the panic point). -/
def ExecResult.state : ExecResult → Interpreter
  | ExecResult.ok m => m
  | ExecResult.panic _ m => m

/-- `Interpreter::new` minus the oversized-program panic: the state every
successful construction produces. -/
def Interpreter.init (program : List Nat) : Interpreter :=
  { ram := Ram.load_program Ram.new 0 program
    screen := List.replicate (32 * 64) false
    variable_registers := List.replicate 16 0
    index_register := 0
    program_counter := 0x200
    stack := []
    delay_timer := Timer.new
    sound_timer := Timer.new
    input_handler :=
      { keys_state := List.replicate 16 KeyState.NotPressed
        waiting := none
        pressed_and_released := none } }

/-- `Interpreter::new` from interpreter.rs: loads the program at 0x200.
A program that does not fit (`0x200 + len > 4096`) panics on the
out-of-range store in `load_program`; that panic is modelled by `none`. -/
def Interpreter.new (program : List Nat) : Option Interpreter :=
  if 0x200 + program.length ≤ 4096 then some (Interpreter.init program) else none

/-- `VariableRegisters::set_vf_to` (and `set_vf` / `clear_vf` with the
constant arguments 1 / 0). -/
def setVfTo (m : Interpreter) (val : Nat) : Interpreter :=
  { m with variable_registers := m.variable_registers.set 15 val }

/-- Read register `r` (an opcode nibble, hence `< 16` for decoded
instructions, so the `getD` default is never exercised there). -/
def regGet (m : Interpreter) (r : Nat) : Nat :=
  m.variable_registers.getD r 0

/-- Write register `r`. -/
def regSet (m : Interpreter) (r : Nat) (val : Nat) : Interpreter :=
  { m with variable_registers := m.variable_registers.set r val }

/-- The inner bit loop of `Interpreter::draw` (`for bit_pos in 0..8`).
`bits` counts the remaining loop iterations down from 8, so the current
`bit_pos` is `8 - bits` and the source's mask `0b10000000 >> bit_pos` is
`2 ^ (bits - 1)`.  A set sprite bit toggles (`^= true`) the pixel at
`y * 64 + x` and sets VF on collision (`Screen::set_pixel` returns the
pixel's previous value); the loop breaks once `x` reaches 63 (clipping),
otherwise increments `x`. -/
def drawRowLoop : Nat → Nat → Nat → Nat → Interpreter → Interpreter
  | 0, _, _, _, m => m
  | bits + 1, spriteLine, x, y, m =>
    let mask := 2 ^ bits
    let m1 :=
      if spriteLine &&& mask ≠ 0 then
        let index := y * 64 + x
        let collision := m.screen.getD index false
        let m2 := { m with screen := m.screen.set index (!collision) }
        if collision then setVfTo m2 1 else m2
      else m
    if x == 63 then m1 else drawRowLoop bits spriteLine (x + 1) y m1

/-- The outer row loop of `Interpreter::draw` (`for sprite_offset in 0..n`).
`remaining` counts the rows still to draw (`n - sprite_offset`).  Each row
reads the sprite byte at `index_register + sprite_offset` (u16 addition;
the RAM index panics when ≥ 4096), draws it starting at `initialX`, then
breaks once `y` reaches 31 (clipping), otherwise increments `y`. -/
def drawRows (initialX : Nat) : Nat → Nat → Nat → Interpreter → ExecResult
  | 0, _, _, m => ExecResult.ok m
  | remaining + 1, spriteOffset, y, m =>
    let spriteAddress := (m.index_register + spriteOffset) % 65536
    if spriteAddress ≥ 4096 then ExecResult.panic PanicReason.memoryOutOfRange m
    else
      let spriteLine := m.ram.getD spriteAddress 0
      let m1 := drawRowLoop 8 spriteLine initialX y m
      if y == 31 then ExecResult.ok m1
      else drawRows initialX remaining (spriteOffset + 1) (y + 1) m1

/-- `Interpreter::draw`: start position wraps (`Vx & 63`, `Vy & 31`), VF is
cleared before drawing, then the row loop runs. -/
def Interpreter.draw (m : Interpreter) (register_x register_y : Nat) (n : Nat) : ExecResult :=
  let initial_x := (regGet m register_x) &&& 63
  let y := (regGet m register_y) &&& 31
  let m1 := setVfTo m 0
  drawRows initial_x n 0 y m1

/-- The loop of `StoreRegisters` (`for register in 0..=up_to_register`):
writes `V[register]` to RAM at `index_register` (panics when the index is
≥ 4096) and increments `index_register` (u16).  `count` is the number of
iterations left, `r` the current register. -/
def storeRegistersLoop : Nat → Nat → Interpreter → ExecResult
  | 0, _, m => ExecResult.ok m
  | count + 1, r, m =>
    if m.index_register ≥ 4096 then ExecResult.panic PanicReason.memoryOutOfRange m
    else
      storeRegistersLoop count (r + 1)
        { m with
          ram := m.ram.set m.index_register (regGet m r)
          index_register := (m.index_register + 1) % 65536 }

/-- The loop of `LoadIntoRegisters`: reads RAM at `index_register` (panics
when the index is ≥ 4096) into `V[register]` and increments
`index_register` (u16). -/
def loadIntoRegistersLoop : Nat → Nat → Interpreter → ExecResult
  | 0, _, m => ExecResult.ok m
  | count + 1, r, m =>
    if m.index_register ≥ 4096 then ExecResult.panic PanicReason.memoryOutOfRange m
    else
      loadIntoRegistersLoop count (r + 1)
        { m with
          variable_registers := m.variable_registers.set r (m.ram.getD m.index_register 0)
          index_register := (m.index_register + 1) % 65536 }

/-- A single RAM store `self.ram[addr] = val` with the u16-index bound
check of `impl IndexMut<u16> for Ram` (panic when `addr ≥ 4096`). -/
def ramStore (m : Interpreter) (addr : Nat) (val : Nat) : ExecResult :=
  if addr ≥ 4096 then ExecResult.panic PanicReason.memoryOutOfRange m
  else ExecResult.ok { m with ram := m.ram.set addr val }

/-- Chain an `ExecResult` into a continuation, keeping a panic as is. -/
def ExecResult.andThen : ExecResult → (Interpreter → ExecResult) → ExecResult
  | ExecResult.ok m, f => f m
  | ExecResult.panic r m, _ => ExecResult.panic r m

/-- `Interpreter::execute` from interpreter.rs.  `modern` selects the
`#[cfg(feature = "modern")]` build; `randomByte` supplies the
`OsRng.gen::<u8>()` draw consumed by `RandomAnd`. -/
def execute (modern : Bool) (randomByte : Nat) (m : Interpreter) :
    Instruction → ExecResult
  | Instruction.Call address =>
    ExecResult.ok
      { m with stack := m.program_counter :: m.stack, program_counter := address }
  | Instruction.Return =>
    -- `Stack::pop` is `self.0.pop().unwrap()`: panics on an empty stack.
    match m.stack with
    | [] => ExecResult.panic PanicReason.stackUnderflow m
    | a :: rest => ExecResult.ok { m with program_counter := a, stack := rest }
  | Instruction.Jump address => ExecResult.ok { m with program_counter := address }
  | Instruction.JumpOffset base_address register =>
    -- legacy builds have no `register` field and use register 0
    let r := if modern then register else 0
    ExecResult.ok { m with program_counter := (base_address + regGet m r) % 65536 }
  | Instruction.SkipEqualByte register byte =>
    if regGet m register == byte then
      ExecResult.ok { m with program_counter := (m.program_counter + 2) % 65536 }
    else ExecResult.ok m
  | Instruction.SkipNotEqualByte register byte =>
    if regGet m register != byte then
      ExecResult.ok { m with program_counter := (m.program_counter + 2) % 65536 }
    else ExecResult.ok m
  | Instruction.SkipEqualVariable register_x register_y =>
    if regGet m register_x == regGet m register_y then
      ExecResult.ok { m with program_counter := (m.program_counter + 2) % 65536 }
    else ExecResult.ok m
  | Instruction.SkipNotEqualVariable register_x register_y =>
    if regGet m register_x != regGet m register_y then
      ExecResult.ok { m with program_counter := (m.program_counter + 2) % 65536 }
    else ExecResult.ok m
  | Instruction.SkipKey register =>
    let key_index := regGet m register
    if m.input_handler.keys_state.getD key_index KeyState.NotPressed = KeyState.Pressed then
      ExecResult.ok { m with program_counter := (m.program_counter + 2) % 65536 }
    else ExecResult.ok m
  | Instruction.SkipNotKey register =>
    let key_index := regGet m register
    if ¬(m.input_handler.keys_state.getD key_index KeyState.NotPressed = KeyState.Pressed) then
      ExecResult.ok { m with program_counter := (m.program_counter + 2) % 65536 }
    else ExecResult.ok m
  | Instruction.SetWithByte register byte => ExecResult.ok (regSet m register byte)
  | Instruction.SetWithVariable register_x register_y =>
    ExecResult.ok (regSet m register_x (regGet m register_y))
  | Instruction.SetIndexWithAddress address =>
    ExecResult.ok { m with index_register := address }
  | Instruction.SetIndexWithSpriteAddress register =>
    ExecResult.ok { m with index_register := regGet m register * 5 }
  | Instruction.AddWithByte register byte =>
    ExecResult.ok (regSet m register ((regGet m register + byte) % 256))
  | Instruction.AddWithVariable register_x register_y =>
    -- overflowing_add: sum modulo 256, overflow flag into VF
    let sum := regGet m register_x + regGet m register_y
    let overflow := sum ≥ 256
    ExecResult.ok (setVfTo (regSet m register_x (sum % 256)) (if overflow then 1 else 0))
  | Instruction.AddIndexWithVariable register =>
    ExecResult.ok { m with index_register := (m.index_register + regGet m register) % 65536 }
  | Instruction.SubWithVariable register_x register_y =>
    -- overflowing_sub: wrapped difference, VF := !overflow
    let vx := regGet m register_x
    let vy := regGet m register_y
    let overflow := vx < vy
    ExecResult.ok
      (setVfTo (regSet m register_x ((vx + 256 - vy) % 256)) (if overflow then 0 else 1))
  | Instruction.SubWithVariableNot register_x register_y =>
    let vx := regGet m register_x
    let vy := regGet m register_y
    let overflow := vy < vx
    ExecResult.ok
      (setVfTo (regSet m register_x ((vy + 256 - vx) % 256)) (if overflow then 0 else 1))
  | Instruction.ShiftRight register_x register_y =>
    -- legacy builds first copy Vy into Vx; modern builds ignore register_y
    let m1 := if modern then m else regSet m register_x (regGet m register_y)
    let last_digit := regGet m1 register_x &&& 1
    ExecResult.ok (setVfTo (regSet m1 register_x (regGet m1 register_x / 2)) last_digit)
  | Instruction.ShiftLeft register_x register_y =>
    let m1 := if modern then m else regSet m register_x (regGet m register_y)
    let first_digit := (regGet m1 register_x &&& 128) >>> 7
    ExecResult.ok
      (setVfTo (regSet m1 register_x (regGet m1 register_x * 2 % 256)) first_digit)
  | Instruction.Or register_x register_y =>
    ExecResult.ok (regSet m register_x (regGet m register_x ||| regGet m register_y))
  | Instruction.And register_x register_y =>
    ExecResult.ok (regSet m register_x (regGet m register_x &&& regGet m register_y))
  | Instruction.Xor register_x register_y =>
    ExecResult.ok (regSet m register_x (regGet m register_x ^^^ regGet m register_y))
  | Instruction.ClearScreen =>
    ExecResult.ok { m with screen := List.replicate (32 * 64) false }
  | Instruction.Draw register_x register_y n => m.draw register_x register_y n
  | Instruction.SetVariableWithDelayTimer register =>
    ExecResult.ok (regSet m register m.delay_timer.value)
  | Instruction.SetDelayTimer register =>
    -- only the timer's value is assigned; its lifecycle state is untouched
    ExecResult.ok { m with delay_timer := { m.delay_timer with value := regGet m register } }
  | Instruction.SetSoundTimer register =>
    ExecResult.ok { m with sound_timer := { m.sound_timer with value := regGet m register } }
  | Instruction.StoreRegisters up_to_register =>
    -- modern builds save and restore index_register around the loop
    let saved := m.index_register
    (storeRegistersLoop (up_to_register + 1) 0 m).andThen fun m1 =>
      ExecResult.ok (if modern then { m1 with index_register := saved } else m1)
  | Instruction.LoadIntoRegisters up_to_register =>
    let saved := m.index_register
    (loadIntoRegistersLoop (up_to_register + 1) 0 m).andThen fun m1 =>
      ExecResult.ok (if modern then { m1 with index_register := saved } else m1)
  | Instruction.StoreDecimalConversion register =>
    let value := regGet m register
    let hundreds := value / 100
    let tens := (value - hundreds * 100) / 10
    let ones := value - hundreds * 100 - tens * 10
    (ramStore m m.index_register hundreds).andThen fun m1 =>
      (ramStore m1 (m1.index_register + 1) tens).andThen fun m2 =>
        ramStore m2 (m2.index_register + 2) ones
  | Instruction.WaitForKey register =>
    ExecResult.ok
      { m with
        input_handler :=
          { m.input_handler with
            keys_state :=
              m.input_handler.keys_state.map fun state =>
                match state with
                | KeyState.NotPressed => state
                | KeyState.Pressed => KeyState.AlreadyPressed
                | KeyState.AlreadyPressed => state
            waiting := some register } }
  | Instruction.RandomAnd register byte =>
    ExecResult.ok (regSet m register (randomByte &&& byte))
  | Instruction.MachineRoutine _ => ExecResult.ok m

/-- `Interpreter::fetch_instruction` followed by decode and execute: reads
the two bytes at `PC`/`PC+1` big-endian (each RAM index panics when
≥ 4096), advances `PC` by 2, then decodes (a decode failure is the
`unreachable!` panic) and executes. -/
def fetchDecodeExecute (modern : Bool) (randomByte : Nat) (m : Interpreter) : ExecResult :=
  if m.program_counter ≥ 4096 then ExecResult.panic PanicReason.memoryOutOfRange m
  else if (m.program_counter + 1) % 65536 ≥ 4096 then
    ExecResult.panic PanicReason.memoryOutOfRange m
  else
    let hi := m.ram.getD m.program_counter 0
    let lo := m.ram.getD ((m.program_counter + 1) % 65536) 0
    let instruction := hi * 256 + lo
    let m1 := { m with program_counter := (m.program_counter + 2) % 65536 }
    match decode instruction with
    | none => ExecResult.panic PanicReason.decodeFailure m1
    | some inst => execute modern randomByte m1 inst

/-- `Interpreter::step` from interpreter.rs.  When `waiting` is set and no
pressed-then-released key has been recorded, the step returns at once with
the state untouched.  When such a key exists, its value is written into
the waiting register and — exactly as in the source — `waiting` and
`pressed_and_released` are left as they are and control falls through to
the fetch-decode-execute of the same call. -/
def step (modern : Bool) (randomByte : Nat) (m : Interpreter) : ExecResult :=
  match m.input_handler.waiting with
  | some register =>
    match m.input_handler.pressed_and_released with
    | none => ExecResult.ok m
    | some key => fetchDecodeExecute modern randomByte (regSet m register key)
  | none => fetchDecodeExecute modern randomByte m

/-- Concrete machine for the C6 example: `V0 = 0x05`, `V1 = 0x09`. -/
def c6Machine : Interpreter := regSet (regSet (Interpreter.init []) 0 5) 1 9

/-- Concrete machine for the C8 witness: waiting on register 4, no event. -/
def c8Machine : Interpreter :=
  { Interpreter.init [] with
    input_handler :=
      { keys_state := List.replicate 16 KeyState.NotPressed
        waiting := some 4
        pressed_and_released := none } }

/-- Concrete machine for claim C1: in the wait-for-key sub-state
(waiting on register 0) with a pressed-then-released event for key 3
recorded, and the program `00E0` (clear screen) at 0x200. -/
def c1Machine : Interpreter :=
  { Interpreter.init [0x00, 0xE0] with
    input_handler :=
      { keys_state := List.replicate 16 KeyState.NotPressed
        waiting := some 0
        pressed_and_released := some 3 } }

/-- Concrete machine for claim C3: the loaded program is the single
opcode 0x5001, which matches no decode pattern. -/
def c3Machine : Interpreter := Interpreter.init [0x50, 0x01]

/-- Concrete machine for claim C5: `V0 = 5`, `I = 0x300`, empty program
(memory above 0x200 is all zero). -/
def c5Machine : Interpreter :=
  { Interpreter.init [] with
    index_register := 0x300
    variable_registers := (List.replicate 16 0).set 0 5 }

/-- The pair of lifecycle states of the two timers. -/
def timerStates (m : Interpreter) : TimerState × TimerState :=
  (m.delay_timer.state, m.sound_timer.state)

/-- Concrete machine for the C10 exhibit: delay timer in state `Zero` at
value 0, register `V1 = 5`. -/
def c10Machine : Interpreter :=
  { regSet (Interpreter.init []) 1 5 with
    delay_timer := { value := 0, state := TimerState.Zero } }

/-- One set-sprite-bit step of the inner draw loop: toggle the pixel and
record a collision in VF (exactly the body of `drawRowLoop` for a set
bit). -/
def togglePixel (m : Interpreter) (index : Nat) : Interpreter :=
  if m.screen.getD index false then
    setVfTo { m with screen := m.screen.set index (!(m.screen.getD index false)) } 1
  else { m with screen := m.screen.set index (!(m.screen.getD index false)) }

/-- Witness machine for the draw claim: sprite byte `0b11111111` at
`index_register = 0`, `V0 = 62`, `V1 = 0`, empty screen. -/
def c4Machine : Interpreter :=
  { ram := [255],
    screen := List.replicate 2048 false,
    variable_registers := (List.replicate 16 0).set 0 62,
    index_register := 0,
    program_counter := 0x200,
    stack := [],
    delay_timer := Timer.new,
    sound_timer := Timer.new,
    input_handler :=
      { keys_state := List.replicate 16 KeyState.NotPressed,
        waiting := none, pressed_and_released := none } }

/-! ## Lemmas, claim theorems and witnesses -/

theorem and_mask_shiftr (op k j : Nat) :
    (op &&& (2 ^ j - 1) * 2 ^ k) >>> k = op / 2 ^ k % 2 ^ j := by
  apply Nat.eq_of_testBit_eq
  intro i
  rw [Nat.testBit_shiftRight, Nat.testBit_and, ← Nat.shiftLeft_eq, Nat.testBit_shiftLeft,
    Nat.testBit_mod_two_pow, ← Nat.shiftRight_eq_div_pow, Nat.testBit_shiftRight]
  simp [Nat.testBit_two_pow_sub_one, Bool.and_comm]

theorem nibbleA_eq (op : Nat) : nibbleA op = op / 4096 % 16 := by
  have h := and_mask_shiftr op 12 4
  norm_num at h
  exact h

theorem nibbleB_eq (op : Nat) : nibbleB op = op / 256 % 16 := by
  have h := and_mask_shiftr op 8 4
  norm_num at h
  exact h

theorem nibbleC_eq (op : Nat) : nibbleC op = op / 16 % 16 := by
  have h := and_mask_shiftr op 4 4
  norm_num at h
  exact h

theorem nibbleD_eq (op : Nat) : nibbleD op = op % 16 := by
  have h := and_mask_shiftr op 0 4
  norm_num at h
  exact h

theorem mask12_eq (op : Nat) : op &&& 0x0FFF = op % 4096 := by
  have h := and_mask_shiftr op 0 12
  norm_num at h
  exact h

theorem mask8_eq (op : Nat) : op &&& 0x00FF = op % 256 := by
  have h := and_mask_shiftr op 0 8
  norm_num at h
  exact h

theorem list_getD_set_ne {α : Type} (l : List α) (i j : Nat) (a d : α) (h : i ≠ j) :
    (l.set i a).getD j d = l.getD j d := by
  induction l generalizing i j with
  | nil => simp
  | cons hd tl ih =>
    cases i with
    | zero =>
      cases j with
      | zero => exact absurd rfl h
      | succ j2 => simp
    | succ i2 =>
      cases j with
      | zero => simp
      | succ j2 => simpa using ih i2 j2 (by omega)

theorem list_getD_set_eq {α : Type} (l : List α) (i : Nat) (a d : α) (h : i < l.length) :
    (l.set i a).getD i d = a := by
  induction l generalizing i with
  | nil => simp at h
  | cons hd tl ih =>
    cases i with
    | zero => simp
    | succ i2 => simpa using ih i2 (by simpa using h)

theorem regGet_regSet_eq (m : Interpreter) (r v : Nat)
    (h : r < m.variable_registers.length) : regGet (regSet m r v) r = v :=
  list_getD_set_eq _ _ _ _ h

theorem regGet_regSet_ne (m : Interpreter) (i r v : Nat) (h : i ≠ r) :
    regGet (regSet m i v) r = regGet m r :=
  list_getD_set_ne _ _ _ _ _ h

theorem regGet_setVfTo_eq (m : Interpreter) (v : Nat)
    (h : 15 < m.variable_registers.length) : regGet (setVfTo m v) 15 = v :=
  list_getD_set_eq _ _ _ _ h

theorem regGet_setVfTo_ne (m : Interpreter) (v r : Nat) (h : r ≠ 15) :
    regGet (setVfTo m v) r = regGet m r :=
  list_getD_set_ne _ _ _ _ _ (fun hh => h hh.symm)

theorem execState_ok (m : Interpreter) : (ExecResult.ok m).state = m := rfl

theorem nat_and_128_shiftr_7 (v : Nat) : (v &&& 128) >>> 7 = v / 128 % 2 := by
  have hpow : (128 : Nat) = 2 ^ 7 := by norm_num
  have h1 : v &&& 128 = (v / 128 % 2) * 128 := by
    rw [hpow, Nat.and_two_pow, Nat.testBit_to_div_mod]
    rcases Nat.mod_two_eq_zero_or_one (v / 2 ^ 7) with h | h <;> rw [h] <;> simp
  rw [h1, Nat.shiftRight_eq_div_pow, ← hpow, Nat.mul_div_cancel _ (by norm_num)]

theorem regSet_vregs (m : Interpreter) (r v : Nat) :
    (regSet m r v).variable_registers = m.variable_registers.set r v := rfl

theorem setVfTo_vregs (m : Interpreter) (v : Nat) :
    (setVfTo m v).variable_registers = m.variable_registers.set 15 v := rfl

theorem decrement_iter_from (k : Nat) (s : TimerState) (h : 1 ≤ k) :
    Timer.decrement^[k] { value := k, state := s } =
      { value := 0, state := TimerState.Zero } := by
  induction k with
  | zero => omega
  | succ n ih =>
    rcases Nat.eq_zero_or_pos n with hn | hn
    · subst hn
      rfl
    · rw [Function.iterate_succ_apply]
      have hd : Timer.decrement { value := n + 1, state := s } =
          { value := n, state := s } := by
        obtain ⟨j, rfl⟩ : ∃ j, n = j + 1 := ⟨n - 1, by omega⟩
        rfl
      rw [hd, ih hn]

/-- Claim C7: `decrement()` reduces the timer value by 1 when it is greater
than 1, sets the value to 0 and the lifecycle state to `Zero` when the value
is exactly 1, and leaves the timer entirely unchanged when the value is 0;
consequently `reset()` (value 60) followed by 60 `decrement()` calls yields
value 0 and state `Zero`, and a 61st `decrement()` leaves the value at 0. -/
theorem c7_timer_decrement_lifecycle (t : Timer) :
    (1 < t.value → Timer.decrement t = { t with value := t.value - 1 }) ∧
    (t.value = 1 → Timer.decrement t = { value := 0, state := TimerState.Zero }) ∧
    (t.value = 0 → Timer.decrement t = t) ∧
    Timer.decrement^[60] (Timer.reset t) = { value := 0, state := TimerState.Zero } ∧
    (Timer.decrement^[61] (Timer.reset t)).value = 0 := by
  obtain ⟨v, s⟩ := t
  refine ⟨?_, ?_, ?_, ?_, ?_⟩
  · intro h
    have h2 : 1 < v := h
    obtain ⟨k, rfl⟩ : ∃ k, v = k + 2 := ⟨v - 2, by omega⟩
    rfl
  · intro h
    have h2 : v = 1 := h
    subst h2
    rfl
  · intro h
    have h2 : v = 0 := h
    subst h2
    rfl
  · have h60 : Timer.reset { value := v, state := s } = { value := 60, state := s } := rfl
    rw [h60, decrement_iter_from 60 s (by omega)]
  · have h60 : Timer.reset { value := v, state := s } = { value := 60, state := s } := rfl
    rw [Function.iterate_succ_apply', h60, decrement_iter_from 60 s (by omega)]
    rfl

/-- Witness for claim C7 at the concrete timer with value 2 (and, via the
closed conjuncts, the reset-then-60/61-decrements behaviour). -/
theorem c7_timer_decrement_lifecycle_witness :
    1 < (2 : Nat) ∧
      Timer.decrement { value := 2, state := TimerState.AboveZero } =
        { value := 1, state := TimerState.AboveZero } :=
  ⟨by decide,
    (c7_timer_decrement_lifecycle { value := 2, state := TimerState.AboveZero }).1
      (by decide)⟩

/-- Claim C6: `SubWithVariable` sets `Vx` to `Vx - Vy` with 8-bit
wraparound (the value of `Vx - Vy` as an integer, reduced modulo 256) and
sets `VF` to 1 iff no borrow occurred, i.e. iff the pre-operation `Vx ≥ Vy`;
`SubWithVariableNot` sets `Vx` to `Vy - Vx` under the same NOT-borrow rule
relative to `Vy - Vx`; concretely `V0 = 0x05, V1 = 0x09` yields
`V0 = 0xFC, VF = 0`.  (When `register_x` is VF itself the flag write
overwrites the difference — that corner is claim C9.) -/
theorem c6_sub_with_variable_semantics (modern : Bool) (rb : Nat) (m : Interpreter)
    (x y : Nat) (hxf : x ≠ 15)
    (hlen : m.variable_registers.length = 16) (hx : x < 16)
    (hbx : regGet m x < 256) (hby : regGet m y < 256) :
    (∃ m2, execute modern rb m (Instruction.SubWithVariable x y) = ExecResult.ok m2 ∧
      (regGet m2 x : Int) = ((regGet m x : Int) - regGet m y) % 256 ∧
      regGet m2 15 = if regGet m y ≤ regGet m x then 1 else 0) ∧
    (∃ m2, execute modern rb m (Instruction.SubWithVariableNot x y) = ExecResult.ok m2 ∧
      (regGet m2 x : Int) = ((regGet m y : Int) - regGet m x) % 256 ∧
      regGet m2 15 = if regGet m x ≤ regGet m y then 1 else 0) ∧
    regGet (execute true 0 c6Machine (Instruction.SubWithVariable 0 1)).state 0 = 0xFC ∧
    regGet (execute true 0 c6Machine (Instruction.SubWithVariable 0 1)).state 15 = 0 := by
  have hx15 : (15 : Nat) < (m.variable_registers.set x ((regGet m x + 256 - regGet m y) % 256)).length := by
    rw [List.length_set, hlen]; omega
  have hx15n : (15 : Nat) < (m.variable_registers.set x ((regGet m y + 256 - regGet m x) % 256)).length := by
    rw [List.length_set, hlen]; omega
  refine ⟨⟨_, rfl, ?_, ?_⟩, ⟨_, rfl, ?_, ?_⟩, ?_, ?_⟩
  · rw [regGet_setVfTo_ne _ _ _ hxf, regGet_regSet_eq _ _ _ (by omega)]
    push_cast
    omega
  · rw [regGet_setVfTo_eq _ _ hx15]
    rcases Nat.lt_or_ge (regGet m x) (regGet m y) with h | h
    · rw [if_pos h, if_neg (by omega)]
    · rw [if_neg (by omega), if_pos (by omega)]
  · rw [regGet_setVfTo_ne _ _ _ hxf, regGet_regSet_eq _ _ _ (by omega)]
    push_cast
    omega
  · rw [regGet_setVfTo_eq _ _ hx15n]
    rcases Nat.lt_or_ge (regGet m y) (regGet m x) with h | h
    · rw [if_pos h, if_neg (by omega)]
    · rw [if_neg (by omega), if_pos (by omega)]
  · decide
  · decide

/-- Witness for claim C6 at a concrete machine (`V2 = 7, V3 = 200`). -/
theorem c6_sub_with_variable_semantics_witness :
    ((2 : Nat) ≠ 15 ∧
      (regSet (regSet (Interpreter.init []) 2 7) 3 200).variable_registers.length = 16 ∧
      (2 : Nat) < 16 ∧
      regGet (regSet (regSet (Interpreter.init []) 2 7) 3 200) 3 < 256) ∧
    (∃ m2, execute true 0 (regSet (regSet (Interpreter.init []) 2 7) 3 200)
        (Instruction.SubWithVariable 2 3) = ExecResult.ok m2 ∧
      (regGet m2 2 : Int) =
        ((regGet (regSet (regSet (Interpreter.init []) 2 7) 3 200) 2 : Int) -
          regGet (regSet (regSet (Interpreter.init []) 2 7) 3 200) 3) % 256 ∧
      regGet m2 15 =
        if regGet (regSet (regSet (Interpreter.init []) 2 7) 3 200) 3 ≤
            regGet (regSet (regSet (Interpreter.init []) 2 7) 3 200) 2 then 1 else 0) :=
  ⟨⟨by decide, by decide, by decide, by decide⟩,
    (c6_sub_with_variable_semantics true 0 _ 2 3 (by decide) (by decide) (by decide)
      (by decide) (by decide)).1⟩

/-- Claim C9: for every flag-producing instruction (`AddWithVariable`,
`SubWithVariable`, `SubWithVariableNot`, `ShiftRight`, `ShiftLeft`) whose
destination register is VF itself (index 15), the final value of VF after
execution is the flag output — the carry, the NOT-borrow, or the
shifted-out bit (the low bit for right shifts, the high bit for left
shifts; in legacy mode the shift source is `Vy`, which is copied into `Vx`
first) — not the arithmetic or shift result: the flag write overwrites the
value previously stored to VF. -/
theorem c9_vf_flag_overwrites (modern : Bool) (rb : Nat) (m : Interpreter) (y : Nat)
    (hlen : m.variable_registers.length = 16) :
    (regGet (execute modern rb m (Instruction.AddWithVariable 15 y)).state 15 =
      if 256 ≤ regGet m 15 + regGet m y then 1 else 0) ∧
    (regGet (execute modern rb m (Instruction.SubWithVariable 15 y)).state 15 =
      if regGet m 15 < regGet m y then 0 else 1) ∧
    (regGet (execute modern rb m (Instruction.SubWithVariableNot 15 y)).state 15 =
      if regGet m y < regGet m 15 then 0 else 1) ∧
    (regGet (execute true rb m (Instruction.ShiftRight 15 y)).state 15 =
      regGet m 15 % 2) ∧
    (regGet (execute false rb m (Instruction.ShiftRight 15 y)).state 15 =
      regGet m y % 2) ∧
    (regGet (execute true rb m (Instruction.ShiftLeft 15 y)).state 15 =
      regGet m 15 / 128 % 2) ∧
    (regGet (execute false rb m (Instruction.ShiftLeft 15 y)).state 15 =
      regGet m y / 128 % 2) := by
  refine ⟨?_, ?_, ?_, ?_, ?_, ?_, ?_⟩
  · simp only [execute, execState_ok]
    rw [regGet_setVfTo_eq _ _ (by simp [regSet_vregs, hlen])]
  · simp only [execute, execState_ok]
    rw [regGet_setVfTo_eq _ _ (by simp [regSet_vregs, hlen])]
  · simp only [execute, execState_ok]
    rw [regGet_setVfTo_eq _ _ (by simp [regSet_vregs, hlen])]
  · simp only [execute, execState_ok]
    simp only [if_true]
    rw [regGet_setVfTo_eq _ _ (by simp [regSet_vregs, hlen]), Nat.and_one_is_mod]
  · simp only [execute, execState_ok]
    simp only [Bool.false_eq_true, if_false]
    rw [regGet_setVfTo_eq _ _ (by simp [regSet_vregs, hlen]), Nat.and_one_is_mod,
      regGet_regSet_eq _ _ _ (by simp [hlen])]
  · simp only [execute, execState_ok]
    simp only [if_true]
    rw [regGet_setVfTo_eq _ _ (by simp [regSet_vregs, hlen]), nat_and_128_shiftr_7]
  · simp only [execute, execState_ok]
    simp only [Bool.false_eq_true, if_false]
    rw [regGet_setVfTo_eq _ _ (by simp [regSet_vregs, hlen]), nat_and_128_shiftr_7,
      regGet_regSet_eq _ _ _ (by simp [hlen])]

/-- Witness for claim C9 on the machine with `VF = 0xFF`, `V1 = 0x01`:
the carry flag 1 overwrites the would-be sum in VF. -/
theorem c9_vf_flag_overwrites_witness :
    (regSet (regSet (Interpreter.init []) 15 0xFF) 1 1).variable_registers.length = 16 ∧
    regGet (execute true 0 (regSet (regSet (Interpreter.init []) 15 0xFF) 1 1)
        (Instruction.AddWithVariable 15 1)).state 15 =
      if 256 ≤ regGet (regSet (regSet (Interpreter.init []) 15 0xFF) 1 1) 15 +
          regGet (regSet (regSet (Interpreter.init []) 15 0xFF) 1 1) 1 then 1 else 0 :=
  ⟨by decide, (c9_vf_flag_overwrites true 0 _ 1 (by decide)).1⟩

/-- Claim C8: in the wait-for-key sub-state with no pressed-then-released
key event recorded, `step()` returns immediately with the machine state
completely unchanged — no fetch, decode, or execute, and no advance of the
program counter. -/
theorem c8_step_waiting_no_event (modern : Bool) (rb : Nat) (m : Interpreter) (r : Nat)
    (hw : m.input_handler.waiting = some r)
    (he : m.input_handler.pressed_and_released = none) :
    step modern rb m = ExecResult.ok m := by
  simp only [step, hw, he]

/-- Witness for claim C8 at a concrete waiting machine. -/
theorem c8_step_waiting_no_event_witness :
    c8Machine.input_handler.waiting = some 4 ∧
    c8Machine.input_handler.pressed_and_released = none ∧
    step true 0 c8Machine = ExecResult.ok c8Machine :=
  ⟨rfl, rfl, c8_step_waiting_no_event true 0 c8Machine 4 rfl rfl⟩

/-- Claim C2 counterexample: opcode 0x5001 matches none of the table's
patterns (a = 5 with d = 1), and the source `decode` — whose return type
is `Instruction`, with no error variant — executes `unreachable!`, i.e.
panics.  In this embedding that panic is the `none` result: there is no
`DecodeError` value returned, refuting the claim that decode failures are
reported as a `DecodeError` result rather than a crash. -/
theorem c2_decode_counterexample : decode 0x5001 = none := by decide

/-- Claim C2 (amended): splitting a 16-bit opcode into nibbles
`(a, b, c, d)` (most to least significant), every opcode matching a
pattern of the table decodes to the corresponding `Instruction` variant
with its operands extracted from the designated nibble/byte/address
fields, and an opcode matching no pattern makes `decode` fail — in the
source this failure is the `unreachable!` panic (a crash), modelled as
`none`, not a returned `DecodeError` value.  The final conjunct
characterises exactly which nibble combinations fail. -/
theorem c2_decode_table_correct :
    (∀ op : Nat, op / 4096 % 16 = 0x0 → op / 256 % 16 = 0x0 → op / 16 % 16 = 0xE → op % 16 = 0x0 →
      decode op = some Instruction.ClearScreen) ∧
    (∀ op : Nat, op / 4096 % 16 = 0x0 → op / 256 % 16 = 0x0 → op / 16 % 16 = 0xE → op % 16 = 0xE →
      decode op = some Instruction.Return) ∧
    (∀ op : Nat, op / 4096 % 16 = 0x0 → ¬(op / 256 % 16 = 0x0 ∧ op / 16 % 16 = 0xE ∧ op % 16 = 0x0) → ¬(op / 256 % 16 = 0x0 ∧ op / 16 % 16 = 0xE ∧ op % 16 = 0xE) →
      decode op = some (Instruction.MachineRoutine (op % 4096))) ∧
    (∀ op : Nat, op / 4096 % 16 = 0x1 →
      decode op = some (Instruction.Jump (op % 4096))) ∧
    (∀ op : Nat, op / 4096 % 16 = 0x2 →
      decode op = some (Instruction.Call (op % 4096))) ∧
    (∀ op : Nat, op / 4096 % 16 = 0x3 →
      decode op = some (Instruction.SkipEqualByte (op / 256 % 16) (op % 256))) ∧
    (∀ op : Nat, op / 4096 % 16 = 0x4 →
      decode op = some (Instruction.SkipNotEqualByte (op / 256 % 16) (op % 256))) ∧
    (∀ op : Nat, op / 4096 % 16 = 0x5 → op % 16 = 0x0 →
      decode op = some (Instruction.SkipEqualVariable (op / 256 % 16) (op / 16 % 16))) ∧
    (∀ op : Nat, op / 4096 % 16 = 0x6 →
      decode op = some (Instruction.SetWithByte (op / 256 % 16) (op % 256))) ∧
    (∀ op : Nat, op / 4096 % 16 = 0x7 →
      decode op = some (Instruction.AddWithByte (op / 256 % 16) (op % 256))) ∧
    (∀ op : Nat, op / 4096 % 16 = 0x8 → op % 16 = 0 →
      decode op = some (Instruction.SetWithVariable (op / 256 % 16) (op / 16 % 16))) ∧
    (∀ op : Nat, op / 4096 % 16 = 0x8 → op % 16 = 1 →
      decode op = some (Instruction.Or (op / 256 % 16) (op / 16 % 16))) ∧
    (∀ op : Nat, op / 4096 % 16 = 0x8 → op % 16 = 2 →
      decode op = some (Instruction.And (op / 256 % 16) (op / 16 % 16))) ∧
    (∀ op : Nat, op / 4096 % 16 = 0x8 → op % 16 = 3 →
      decode op = some (Instruction.Xor (op / 256 % 16) (op / 16 % 16))) ∧
    (∀ op : Nat, op / 4096 % 16 = 0x8 → op % 16 = 4 →
      decode op = some (Instruction.AddWithVariable (op / 256 % 16) (op / 16 % 16))) ∧
    (∀ op : Nat, op / 4096 % 16 = 0x8 → op % 16 = 5 →
      decode op = some (Instruction.SubWithVariable (op / 256 % 16) (op / 16 % 16))) ∧
    (∀ op : Nat, op / 4096 % 16 = 0x8 → op % 16 = 6 →
      decode op = some (Instruction.ShiftRight (op / 256 % 16) (op / 16 % 16))) ∧
    (∀ op : Nat, op / 4096 % 16 = 0x8 → op % 16 = 7 →
      decode op = some (Instruction.SubWithVariableNot (op / 256 % 16) (op / 16 % 16))) ∧
    (∀ op : Nat, op / 4096 % 16 = 0x8 → op % 16 = 14 →
      decode op = some (Instruction.ShiftLeft (op / 256 % 16) (op / 16 % 16))) ∧
    (∀ op : Nat, op / 4096 % 16 = 0x9 → op % 16 = 0x0 →
      decode op = some (Instruction.SkipNotEqualVariable (op / 256 % 16) (op / 16 % 16))) ∧
    (∀ op : Nat, op / 4096 % 16 = 0xA →
      decode op = some (Instruction.SetIndexWithAddress (op % 4096))) ∧
    (∀ op : Nat, op / 4096 % 16 = 0xB →
      decode op = some (Instruction.JumpOffset (op % 4096) (op / 256 % 16))) ∧
    (∀ op : Nat, op / 4096 % 16 = 0xC →
      decode op = some (Instruction.RandomAnd (op / 256 % 16) (op % 256))) ∧
    (∀ op : Nat, op / 4096 % 16 = 0xD →
      decode op = some (Instruction.Draw (op / 256 % 16) (op / 16 % 16) (op % 16))) ∧
    (∀ op : Nat, op / 4096 % 16 = 0xE → op / 16 % 16 = 0x9 → op % 16 = 0xE →
      decode op = some (Instruction.SkipKey (op / 256 % 16))) ∧
    (∀ op : Nat, op / 4096 % 16 = 0xE → op / 16 % 16 = 0xA → op % 16 = 0x1 →
      decode op = some (Instruction.SkipNotKey (op / 256 % 16))) ∧
    (∀ op : Nat, op / 4096 % 16 = 0xF → op / 16 % 16 = 0 → op % 16 = 7 →
      decode op = some (Instruction.SetVariableWithDelayTimer (op / 256 % 16))) ∧
    (∀ op : Nat, op / 4096 % 16 = 0xF → op / 16 % 16 = 0 → op % 16 = 10 →
      decode op = some (Instruction.WaitForKey (op / 256 % 16))) ∧
    (∀ op : Nat, op / 4096 % 16 = 0xF → op / 16 % 16 = 1 → op % 16 = 5 →
      decode op = some (Instruction.SetDelayTimer (op / 256 % 16))) ∧
    (∀ op : Nat, op / 4096 % 16 = 0xF → op / 16 % 16 = 1 → op % 16 = 8 →
      decode op = some (Instruction.SetSoundTimer (op / 256 % 16))) ∧
    (∀ op : Nat, op / 4096 % 16 = 0xF → op / 16 % 16 = 1 → op % 16 = 14 →
      decode op = some (Instruction.AddIndexWithVariable (op / 256 % 16))) ∧
    (∀ op : Nat, op / 4096 % 16 = 0xF → op / 16 % 16 = 2 → op % 16 = 9 →
      decode op = some (Instruction.SetIndexWithSpriteAddress (op / 256 % 16))) ∧
    (∀ op : Nat, op / 4096 % 16 = 0xF → op / 16 % 16 = 3 → op % 16 = 3 →
      decode op = some (Instruction.StoreDecimalConversion (op / 256 % 16))) ∧
    (∀ op : Nat, op / 4096 % 16 = 0xF → op / 16 % 16 = 5 → op % 16 = 5 →
      decode op = some (Instruction.StoreRegisters (op / 256 % 16))) ∧
    (∀ op : Nat, op / 4096 % 16 = 0xF → op / 16 % 16 = 6 → op % 16 = 5 →
      decode op = some (Instruction.LoadIntoRegisters (op / 256 % 16))) ∧
    (∀ op : Nat,
      (decode op = none ↔
        (op / 4096 % 16 = 0x5 ∧ op % 16 ≠ 0) ∨
        (op / 4096 % 16 = 0x8 ∧ ¬(op % 16 < 8 ∨ op % 16 = 0xE)) ∨
        (op / 4096 % 16 = 0x9 ∧ op % 16 ≠ 0) ∨
        (op / 4096 % 16 = 0xE ∧ ¬((op / 16 % 16 = 9 ∧ op % 16 = 0xE) ∨ (op / 16 % 16 = 0xA ∧ op % 16 = 1))) ∨
        (op / 4096 % 16 = 0xF ∧ ¬((op / 16 % 16 = 0 ∧ op % 16 = 7) ∨ (op / 16 % 16 = 0 ∧ op % 16 = 0xA) ∨
          (op / 16 % 16 = 1 ∧ op % 16 = 5) ∨ (op / 16 % 16 = 1 ∧ op % 16 = 8) ∨ (op / 16 % 16 = 1 ∧ op % 16 = 0xE) ∨
          (op / 16 % 16 = 2 ∧ op % 16 = 9) ∨ (op / 16 % 16 = 3 ∧ op % 16 = 3) ∨
          (op / 16 % 16 = 5 ∧ op % 16 = 5) ∨ (op / 16 % 16 = 6 ∧ op % 16 = 5))))) := by
  refine ⟨?_, ?_, ?_, ?_, ?_, ?_, ?_, ?_, ?_, ?_, ?_, ?_, ?_, ?_, ?_, ?_, ?_, ?_, ?_, ?_, ?_, ?_, ?_, ?_, ?_, ?_, ?_, ?_, ?_, ?_, ?_, ?_, ?_, ?_, ?_, ?_⟩
  · intro op ha hb hcc hd
    unfold decode
    rw [nibbleA_eq op, nibbleB_eq op, nibbleC_eq op, nibbleD_eq op, mask12_eq op, mask8_eq op, ha, hb, hcc, hd]
    rfl
  · intro op ha hb hcc hd
    unfold decode
    rw [nibbleA_eq op, nibbleB_eq op, nibbleC_eq op, nibbleD_eq op, mask12_eq op, mask8_eq op, ha, hb, hcc, hd]
    rfl
  · intro op ha h1 h2
    unfold decode
    rw [nibbleA_eq op, nibbleB_eq op, nibbleC_eq op, nibbleD_eq op, mask12_eq op, mask8_eq op, ha]
    rw [if_neg (by omega), if_neg (by omega), if_pos rfl]
  · intro op ha
    unfold decode
    rw [nibbleA_eq op, nibbleB_eq op, nibbleC_eq op, nibbleD_eq op, mask12_eq op, mask8_eq op, ha]
    rfl
  · intro op ha
    unfold decode
    rw [nibbleA_eq op, nibbleB_eq op, nibbleC_eq op, nibbleD_eq op, mask12_eq op, mask8_eq op, ha]
    rfl
  · intro op ha
    unfold decode
    rw [nibbleA_eq op, nibbleB_eq op, nibbleC_eq op, nibbleD_eq op, mask12_eq op, mask8_eq op, ha]
    rfl
  · intro op ha
    unfold decode
    rw [nibbleA_eq op, nibbleB_eq op, nibbleC_eq op, nibbleD_eq op, mask12_eq op, mask8_eq op, ha]
    rfl
  · intro op ha hd
    unfold decode
    rw [nibbleA_eq op, nibbleB_eq op, nibbleC_eq op, nibbleD_eq op, mask12_eq op, mask8_eq op, ha, hd]
    rfl
  · intro op ha
    unfold decode
    rw [nibbleA_eq op, nibbleB_eq op, nibbleC_eq op, nibbleD_eq op, mask12_eq op, mask8_eq op, ha]
    rfl
  · intro op ha
    unfold decode
    rw [nibbleA_eq op, nibbleB_eq op, nibbleC_eq op, nibbleD_eq op, mask12_eq op, mask8_eq op, ha]
    rfl
  · intro op ha hd
    unfold decode
    rw [nibbleA_eq op, nibbleB_eq op, nibbleC_eq op, nibbleD_eq op, mask12_eq op, mask8_eq op, ha, hd]
    rfl
  · intro op ha hd
    unfold decode
    rw [nibbleA_eq op, nibbleB_eq op, nibbleC_eq op, nibbleD_eq op, mask12_eq op, mask8_eq op, ha, hd]
    rfl
  · intro op ha hd
    unfold decode
    rw [nibbleA_eq op, nibbleB_eq op, nibbleC_eq op, nibbleD_eq op, mask12_eq op, mask8_eq op, ha, hd]
    rfl
  · intro op ha hd
    unfold decode
    rw [nibbleA_eq op, nibbleB_eq op, nibbleC_eq op, nibbleD_eq op, mask12_eq op, mask8_eq op, ha, hd]
    rfl
  · intro op ha hd
    unfold decode
    rw [nibbleA_eq op, nibbleB_eq op, nibbleC_eq op, nibbleD_eq op, mask12_eq op, mask8_eq op, ha, hd]
    rfl
  · intro op ha hd
    unfold decode
    rw [nibbleA_eq op, nibbleB_eq op, nibbleC_eq op, nibbleD_eq op, mask12_eq op, mask8_eq op, ha, hd]
    rfl
  · intro op ha hd
    unfold decode
    rw [nibbleA_eq op, nibbleB_eq op, nibbleC_eq op, nibbleD_eq op, mask12_eq op, mask8_eq op, ha, hd]
    rfl
  · intro op ha hd
    unfold decode
    rw [nibbleA_eq op, nibbleB_eq op, nibbleC_eq op, nibbleD_eq op, mask12_eq op, mask8_eq op, ha, hd]
    rfl
  · intro op ha hd
    unfold decode
    rw [nibbleA_eq op, nibbleB_eq op, nibbleC_eq op, nibbleD_eq op, mask12_eq op, mask8_eq op, ha, hd]
    rfl
  · intro op ha hd
    unfold decode
    rw [nibbleA_eq op, nibbleB_eq op, nibbleC_eq op, nibbleD_eq op, mask12_eq op, mask8_eq op, ha, hd]
    rfl
  · intro op ha
    unfold decode
    rw [nibbleA_eq op, nibbleB_eq op, nibbleC_eq op, nibbleD_eq op, mask12_eq op, mask8_eq op, ha]
    rfl
  · intro op ha
    unfold decode
    rw [nibbleA_eq op, nibbleB_eq op, nibbleC_eq op, nibbleD_eq op, mask12_eq op, mask8_eq op, ha]
    rfl
  · intro op ha
    unfold decode
    rw [nibbleA_eq op, nibbleB_eq op, nibbleC_eq op, nibbleD_eq op, mask12_eq op, mask8_eq op, ha]
    rfl
  · intro op ha
    unfold decode
    rw [nibbleA_eq op, nibbleB_eq op, nibbleC_eq op, nibbleD_eq op, mask12_eq op, mask8_eq op, ha]
    rfl
  · intro op ha hcc hd
    unfold decode
    rw [nibbleA_eq op, nibbleB_eq op, nibbleC_eq op, nibbleD_eq op, mask12_eq op, mask8_eq op, ha, hcc, hd]
    rfl
  · intro op ha hcc hd
    unfold decode
    rw [nibbleA_eq op, nibbleB_eq op, nibbleC_eq op, nibbleD_eq op, mask12_eq op, mask8_eq op, ha, hcc, hd]
    rfl
  · intro op ha hcc hd
    unfold decode
    rw [nibbleA_eq op, nibbleB_eq op, nibbleC_eq op, nibbleD_eq op, mask12_eq op, mask8_eq op, ha, hcc, hd]
    rfl
  · intro op ha hcc hd
    unfold decode
    rw [nibbleA_eq op, nibbleB_eq op, nibbleC_eq op, nibbleD_eq op, mask12_eq op, mask8_eq op, ha, hcc, hd]
    rfl
  · intro op ha hcc hd
    unfold decode
    rw [nibbleA_eq op, nibbleB_eq op, nibbleC_eq op, nibbleD_eq op, mask12_eq op, mask8_eq op, ha, hcc, hd]
    rfl
  · intro op ha hcc hd
    unfold decode
    rw [nibbleA_eq op, nibbleB_eq op, nibbleC_eq op, nibbleD_eq op, mask12_eq op, mask8_eq op, ha, hcc, hd]
    rfl
  · intro op ha hcc hd
    unfold decode
    rw [nibbleA_eq op, nibbleB_eq op, nibbleC_eq op, nibbleD_eq op, mask12_eq op, mask8_eq op, ha, hcc, hd]
    rfl
  · intro op ha hcc hd
    unfold decode
    rw [nibbleA_eq op, nibbleB_eq op, nibbleC_eq op, nibbleD_eq op, mask12_eq op, mask8_eq op, ha, hcc, hd]
    rfl
  · intro op ha hcc hd
    unfold decode
    rw [nibbleA_eq op, nibbleB_eq op, nibbleC_eq op, nibbleD_eq op, mask12_eq op, mask8_eq op, ha, hcc, hd]
    rfl
  · intro op ha hcc hd
    unfold decode
    rw [nibbleA_eq op, nibbleB_eq op, nibbleC_eq op, nibbleD_eq op, mask12_eq op, mask8_eq op, ha, hcc, hd]
    rfl
  · intro op ha hcc hd
    unfold decode
    rw [nibbleA_eq op, nibbleB_eq op, nibbleC_eq op, nibbleD_eq op, mask12_eq op, mask8_eq op, ha, hcc, hd]
    rfl
  · intro op
    constructor
    · intro h
      by_contra hc
      apply absurd h
      clear h
      unfold decode
      rw [nibbleA_eq op, nibbleB_eq op, nibbleC_eq op, nibbleD_eq op, mask12_eq op, mask8_eq op]
      have hsplit : op / 4096 % 16 = 0 ∨ op / 4096 % 16 = 1 ∨ op / 4096 % 16 = 2 ∨ op / 4096 % 16 = 3 ∨ op / 4096 % 16 = 4 ∨ op / 4096 % 16 = 5 ∨ op / 4096 % 16 = 6 ∨ op / 4096 % 16 = 7 ∨ op / 4096 % 16 = 8 ∨ op / 4096 % 16 = 9 ∨ op / 4096 % 16 = 10 ∨ op / 4096 % 16 = 11 ∨ op / 4096 % 16 = 12 ∨ op / 4096 % 16 = 13 ∨ op / 4096 % 16 = 14 ∨ op / 4096 % 16 = 15 := by omega
      rcases hsplit with hA|hA|hA|hA|hA|hA|hA|hA|hA|hA|hA|hA|hA|hA|hA|hA
      · rw [hA]
        clear hc
        by_cases hb : op / 256 % 16 = 0 ∧ op / 16 % 16 = 14 ∧ op % 16 = 0
        · rw [if_pos (by omega)]
          simp
        rw [if_neg (by omega)]
        by_cases hb2 : op / 256 % 16 = 0 ∧ op / 16 % 16 = 14 ∧ op % 16 = 14
        · rw [if_pos (by omega)]
          simp
        rw [if_neg (by omega), if_pos rfl]
        simp
      · rw [hA]
        clear hc
        repeat rw [if_neg (by omega)]
        rw [if_pos (by omega)]
        simp
      · rw [hA]
        clear hc
        repeat rw [if_neg (by omega)]
        rw [if_pos (by omega)]
        simp
      · rw [hA]
        clear hc
        repeat rw [if_neg (by omega)]
        rw [if_pos (by omega)]
        simp
      · rw [hA]
        clear hc
        repeat rw [if_neg (by omega)]
        rw [if_pos (by omega)]
        simp
      · rw [hA]
        have hD : op % 16 = 0 := by
          by_contra hnn
          exact hc (Or.inl ⟨hA, hnn⟩)
        clear hc
        rw [hD]
        repeat rw [if_neg (by omega)]
        rw [if_pos (by omega)]
        simp
      · rw [hA]
        clear hc
        repeat rw [if_neg (by omega)]
        rw [if_pos (by omega)]
        simp
      · rw [hA]
        clear hc
        repeat rw [if_neg (by omega)]
        rw [if_pos (by omega)]
        simp
      · rw [hA]
        have hd : op % 16 < 8 ∨ op % 16 = 14 := by
          by_contra hnn
          exact hc (Or.inr (Or.inl ⟨hA, hnn⟩))
        clear hc
        have hsplitd : op % 16 = 0 ∨ op % 16 = 1 ∨ op % 16 = 2 ∨ op % 16 = 3 ∨ op % 16 = 4 ∨ op % 16 = 5 ∨ op % 16 = 6 ∨ op % 16 = 7 ∨ op % 16 = 14 := by omega
        clear hd
        rcases hsplitd with hD|hD|hD|hD|hD|hD|hD|hD|hD
        all_goals rw [hD]
        all_goals (repeat rw [if_neg (by omega)])
        all_goals rw [if_pos (by omega)]
        all_goals simp
      · rw [hA]
        have hD : op % 16 = 0 := by
          by_contra hnn
          exact hc (Or.inr (Or.inr (Or.inl ⟨hA, hnn⟩)))
        clear hc
        rw [hD]
        repeat rw [if_neg (by omega)]
        rw [if_pos (by omega)]
        simp
      · rw [hA]
        clear hc
        repeat rw [if_neg (by omega)]
        rw [if_pos (by omega)]
        simp
      · rw [hA]
        clear hc
        repeat rw [if_neg (by omega)]
        rw [if_pos (by omega)]
        simp
      · rw [hA]
        clear hc
        repeat rw [if_neg (by omega)]
        rw [if_pos (by omega)]
        simp
      · rw [hA]
        clear hc
        repeat rw [if_neg (by omega)]
        rw [if_pos (by omega)]
        simp
      · rw [hA]
        have hcd : (op / 16 % 16 = 9 ∧ op % 16 = 14) ∨ (op / 16 % 16 = 10 ∧ op % 16 = 1) := by
          by_contra hnn
          exact hc (Or.inr (Or.inr (Or.inr (Or.inl ⟨hA, hnn⟩))))
        clear hc
        rcases hcd with ⟨h1, h2⟩ | ⟨h1, h2⟩
        all_goals rw [h1, h2]
        all_goals (repeat rw [if_neg (by omega)])
        all_goals rw [if_pos (by omega)]
        all_goals simp
      · rw [hA]
        have hcd : (op / 16 % 16 = 0 ∧ op % 16 = 7) ∨ (op / 16 % 16 = 0 ∧ op % 16 = 10) ∨ (op / 16 % 16 = 1 ∧ op % 16 = 5) ∨ (op / 16 % 16 = 1 ∧ op % 16 = 8) ∨ (op / 16 % 16 = 1 ∧ op % 16 = 14) ∨ (op / 16 % 16 = 2 ∧ op % 16 = 9) ∨ (op / 16 % 16 = 3 ∧ op % 16 = 3) ∨ (op / 16 % 16 = 5 ∧ op % 16 = 5) ∨ (op / 16 % 16 = 6 ∧ op % 16 = 5) := by
          by_contra hnn
          exact hc (Or.inr (Or.inr (Or.inr (Or.inr ⟨hA, hnn⟩))))
        clear hc
        rcases hcd with ⟨h1, h2⟩|⟨h1, h2⟩|⟨h1, h2⟩|⟨h1, h2⟩|⟨h1, h2⟩|⟨h1, h2⟩|⟨h1, h2⟩|⟨h1, h2⟩|⟨h1, h2⟩
        all_goals rw [h1, h2]
        all_goals (repeat rw [if_neg (by omega)])
        all_goals rw [if_pos (by omega)]
        all_goals simp
    · intro hcond
      unfold decode
      rw [nibbleA_eq op, nibbleB_eq op, nibbleC_eq op, nibbleD_eq op, mask12_eq op, mask8_eq op]
      rcases hcond with ⟨hA, hx⟩ | ⟨hA, hx⟩ | ⟨hA, hx⟩ | ⟨hA, hx⟩ | ⟨hA, hx⟩
      · repeat rw [if_neg (by omega)]
      · repeat rw [if_neg (by omega)]
      · repeat rw [if_neg (by omega)]
      · repeat rw [if_neg (by omega)]
      · repeat rw [if_neg (by omega)]

/-- Witness for claim C2: applying the Jump row of the table at the
concrete opcode 0x1ABC. -/
theorem c2_decode_table_correct_witness :
    0x1ABC / 4096 % 16 = 0x1 ∧ decode 0x1ABC = some (Instruction.Jump 0xABC) :=
  ⟨by norm_num, c2_decode_table_correct.2.2.2.1 0x1ABC (by norm_num)⟩

/-- Claim C1 (evaluation of the code at the failing input): with
`waiting = some 0` and `pressed_and_released = some 3`, `step()` writes
key value 3 into `V0` — but it does NOT clear the wait sub-state
(`waiting` and `pressed_and_released` keep their values), and it DOES
fetch, decode and execute an instruction in that same call (the program
counter advances from 0x200 to 0x202).  This contradicts the claim that
the wait is cleared and that no fetch/decode/execute happens in the same
call. -/
theorem c1_wait_event_step_behaviour :
    regGet (step true 0 c1Machine).state 0 = 3 ∧
    (step true 0 c1Machine).state.input_handler.waiting = some 0 ∧
    (step true 0 c1Machine).state.input_handler.pressed_and_released = some 3 ∧
    (step true 0 c1Machine).state.program_counter = 0x202 ∧
    (∃ m2, step true 0 c1Machine = ExecResult.ok m2) :=
  ⟨by decide, by decide, by decide, by decide, _, rfl⟩

/-- Claim C3 counterexample: a `step()` that fails (here with the panic
modelling a decode failure on opcode 0x5001) does NOT leave the
observable machine state unchanged: the program counter has already been
advanced by the fetch, so the state at the failure differs from the
pre-step state. -/
theorem c3_failed_step_changes_state :
    (∃ ms, step true 0 c3Machine = ExecResult.panic PanicReason.decodeFailure ms) ∧
    (step true 0 c3Machine).state.program_counter = 0x202 ∧
    c3Machine.program_counter = 0x200 ∧
    (step true 0 c3Machine).state ≠ c3Machine := by
  refine ⟨⟨(step true 0 c3Machine).state, rfl⟩, by decide, rfl, ?_⟩
  intro h
  have hpc := congrArg Interpreter.program_counter h
  rw [show (step true 0 c3Machine).state.program_counter = 0x202 from by decide] at hpc
  exact absurd hpc (by decide)

/-- Claim C3 (amended): when `step()` fails with a decode failure or with
a stack underflow on `Return`, the machine state observable at the panic
is the pre-step state with exactly the program counter advanced by 2 (the
fetch has already committed); no other component is modified.  (For
out-of-range memory errors inside multi-write instructions such as
`StoreRegisters`, the loop's earlier writes additionally remain
committed, so the original all-or-nothing claim fails.) -/
theorem c3_panic_pc_advanced (modern : Bool) (rb : Nat) (m : Interpreter)
    (hw : m.input_handler.waiting = none)
    (hpc : m.program_counter + 1 < 4096) :
    (decode (m.ram.getD m.program_counter 0 * 256 +
        m.ram.getD (m.program_counter + 1) 0) = none →
      step modern rb m = ExecResult.panic PanicReason.decodeFailure
        { m with program_counter := m.program_counter + 2 }) ∧
    (decode (m.ram.getD m.program_counter 0 * 256 +
        m.ram.getD (m.program_counter + 1) 0) = some Instruction.Return →
      m.stack = [] →
      step modern rb m = ExecResult.panic PanicReason.stackUnderflow
        { m with program_counter := m.program_counter + 2 }) := by
  have h2 : (m.program_counter + 1) % 65536 = m.program_counter + 1 :=
    Nat.mod_eq_of_lt (by omega)
  have h3 : (m.program_counter + 2) % 65536 = m.program_counter + 2 :=
    Nat.mod_eq_of_lt (by omega)
  constructor
  · intro hdec
    simp only [step, hw]
    unfold fetchDecodeExecute
    rw [if_neg (by omega), h2, if_neg (by omega)]
    simp only []
    rw [hdec, h3]
  · intro hdec hstack
    simp only [step, hw]
    unfold fetchDecodeExecute
    rw [if_neg (by omega), h2, if_neg (by omega)]
    simp only []
    rw [hdec, h3]
    unfold execute
    simp only []
    rw [hstack]

/-- Witness for the amended claim C3 at the concrete 0x5001 machine. -/
theorem c3_panic_pc_advanced_witness :
    c3Machine.input_handler.waiting = none ∧
    c3Machine.program_counter + 1 < 4096 ∧
    decode (c3Machine.ram.getD c3Machine.program_counter 0 * 256 +
      c3Machine.ram.getD (c3Machine.program_counter + 1) 0) = none ∧
    step true 0 c3Machine = ExecResult.panic PanicReason.decodeFailure
      { c3Machine with program_counter := c3Machine.program_counter + 2 } :=
  ⟨rfl, by decide, by decide,
    (c3_panic_pc_advanced true 0 c3Machine rfl (by decide)).1 (by decide)⟩

theorem storeRegistersLoop_spec (k : Nat) :
    ∀ (r : Nat) (m : Interpreter),
      m.ram.length = 4096 →
      (∀ j, j < k → m.index_register + j < 4096) →
      ∃ m2, storeRegistersLoop k r m = ExecResult.ok m2 ∧
        m2.index_register = m.index_register + k ∧
        m2.ram.length = 4096 ∧
        (∀ j, j < k → m2.ram.getD (m.index_register + j) 0 = regGet m (r + j)) ∧
        (∀ addr, addr < m.index_register ∨ m.index_register + k ≤ addr →
          m2.ram.getD addr 0 = m.ram.getD addr 0) ∧
        m2.screen = m.screen ∧
        m2.variable_registers = m.variable_registers ∧
        m2.program_counter = m.program_counter ∧
        m2.stack = m.stack ∧
        m2.delay_timer = m.delay_timer ∧
        m2.sound_timer = m.sound_timer ∧
        m2.input_handler = m.input_handler := by
  induction k with
  | zero =>
    intro r m hram hbound
    exact ⟨m, rfl, by omega, hram, fun j hj => absurd hj (by omega),
      fun addr h => rfl, rfl, rfl, rfl, rfl, rfl, rfl, rfl⟩
  | succ k ih =>
    intro r m hram hbound
    have hI : m.index_register < 4096 := by
      have := hbound 0 (by omega)
      omega
    have hmod : (m.index_register + 1) % 65536 = m.index_register + 1 :=
      Nat.mod_eq_of_lt (by omega)
    obtain ⟨m2, hloop, hidx, hlen, hwr, hfr, hs, hv, hp, hst, hdt, hsnd, hih⟩ :=
      ih (r + 1)
        { m with
          ram := m.ram.set m.index_register (regGet m r)
          index_register := (m.index_register + 1) % 65536 }
        (by simpa using hram)
        (by
          intro j hj
          simp only [hmod]
          have := hbound (j + 1) (by omega)
          omega)
    refine ⟨m2, ?_, ?_, hlen, ?_, ?_, hs, hv, hp, hst, hdt, hsnd, hih⟩
    · unfold storeRegistersLoop
      rw [if_neg (by omega)]
      exact hloop
    · simp only [hmod] at hidx
      omega
    · intro j hj
      match j with
      | 0 =>
        have h1 := hfr m.index_register (by simp only [hmod]; omega)
        simp only [hmod] at h1
        rw [Nat.add_zero, h1, list_getD_set_eq _ _ _ _ (by omega), Nat.add_zero]
      | j + 1 =>
        have h1 := hwr j (by omega)
        simp only [hmod] at h1
        have e1 : m.index_register + 1 + j = m.index_register + (j + 1) := by omega
        have e2 : r + 1 + j = r + (j + 1) := by omega
        rw [e1, e2] at h1
        exact h1
    · intro addr h
      have h1 := hfr addr (by simp only [hmod]; omega)
      rw [h1, list_getD_set_ne _ _ _ _ _ (by omega)]

theorem loadIntoRegistersLoop_spec (k : Nat) :
    ∀ (r : Nat) (m : Interpreter),
      m.variable_registers.length = 16 →
      (∀ j, j < k → m.index_register + j < 4096) →
      ∃ m2, loadIntoRegistersLoop k r m = ExecResult.ok m2 ∧
        m2.index_register = m.index_register + k ∧
        m2.ram = m.ram ∧
        m2.variable_registers.length = 16 ∧
        (∀ j, j < k → r + j < 16 → regGet m2 (r + j) = m.ram.getD (m.index_register + j) 0) ∧
        (∀ i, (∀ j, j < k → i ≠ r + j) → regGet m2 i = regGet m i) ∧
        m2.screen = m.screen ∧
        m2.program_counter = m.program_counter ∧
        m2.stack = m.stack ∧
        m2.delay_timer = m.delay_timer ∧
        m2.sound_timer = m.sound_timer ∧
        m2.input_handler = m.input_handler := by
  induction k with
  | zero =>
    intro r m hreg hbound
    exact ⟨m, rfl, by omega, rfl, hreg, fun j hj => absurd hj (by omega),
      fun i h => rfl, rfl, rfl, rfl, rfl, rfl, rfl⟩
  | succ k ih =>
    intro r m hreg hbound
    have hI : m.index_register < 4096 := by
      have := hbound 0 (by omega)
      omega
    have hmod : (m.index_register + 1) % 65536 = m.index_register + 1 :=
      Nat.mod_eq_of_lt (by omega)
    obtain ⟨m2, hloop, hidx, hram2, hlen, hwr, hfr, hs, hp, hst, hdt, hsnd, hih⟩ :=
      ih (r + 1)
        { m with
          variable_registers := m.variable_registers.set r (m.ram.getD m.index_register 0)
          index_register := (m.index_register + 1) % 65536 }
        (by simp [hreg])
        (by
          intro j hj
          simp only [hmod]
          have := hbound (j + 1) (by omega)
          omega)
    refine ⟨m2, ?_, ?_, (by simpa using hram2), hlen, ?_, ?_, hs, hp, hst, hdt, hsnd, hih⟩
    · unfold loadIntoRegistersLoop
      rw [if_neg (by omega)]
      exact hloop
    · simp only [hmod] at hidx
      omega
    · intro j hj hr16
      match j, hj, hr16 with
      | 0, hj, hr16 =>
        have h1 := hfr r (by intro j2 hj2; omega)
        rw [Nat.add_zero, h1]
        show (m.variable_registers.set r (m.ram.getD m.index_register 0)).getD r 0 = _
        rw [list_getD_set_eq _ _ _ _ (by omega), Nat.add_zero]
      | j + 1, hj, hr16 =>
        have h1 := hwr j (by omega) (by omega)
        simp only [hmod] at h1
        have e1 : m.index_register + 1 + j = m.index_register + (j + 1) := by omega
        have e2 : r + 1 + j = r + (j + 1) := by omega
        rw [e1, e2] at h1
        rw [h1]
    · intro i h
      have h1 := hfr i (by intro j2 hj2; have := h (j2 + 1) (by omega); omega)
      rw [h1]
      show (m.variable_registers.set r (m.ram.getD m.index_register 0)).getD i 0 = _
      rw [list_getD_set_ne _ _ _ _ _ (by have := h 0 (by omega); omega)]
      rfl

theorem load_program_length (p : List Nat) :
    ∀ (ram : List Nat) (off : Nat), (Ram.load_program ram off p).length = ram.length := by
  induction p with
  | nil => intro ram off; rfl
  | cons b rest ih =>
    intro ram off
    show (Ram.load_program (ram.set (0x200 + off) b) (off + 1) rest).length = ram.length
    rw [ih, List.length_set]

theorem init_ram_length (p : List Nat) : (Interpreter.init p).ram.length = 4096 := by
  show (Ram.load_program Ram.new 0 p).length = 4096
  rw [load_program_length, Ram.new]
  rw [List.length_append, List.length_replicate]
  norm_num [FONT_DATA]

/-- Claim C5 counterexample: in legacy mode, `StoreRegisters{0}` followed
by `LoadIntoRegisters{0}` does NOT reproduce `V0` and does NOT advance `I`
by `n + 1 = 1`: starting from `V0 = 5`, `I = 0x300`, the store writes 5 at
0x300 and leaves `I = 0x301`, and the load then reads memory at 0x301
(which is 0), so the round-trip ends with `V0 = 0 ≠ 5` and
`I = 0x302 = I0 + 2(n+1)`, not `I0 + 1`. -/
theorem c5_legacy_roundtrip_counterexample :
    regGet c5Machine 0 = 5 ∧
    c5Machine.index_register = 0x300 ∧
    regGet (((execute false 0 c5Machine (Instruction.StoreRegisters 0)).andThen
      fun m1 => execute false 0 m1 (Instruction.LoadIntoRegisters 0)).state) 0 = 0 ∧
    (((execute false 0 c5Machine (Instruction.StoreRegisters 0)).andThen
      fun m1 => execute false 0 m1 (Instruction.LoadIntoRegisters 0)).state).index_register
      = 0x302 := by
  refine ⟨by decide, rfl, by decide, by decide⟩

/-- Claim C5 (amended): for `n ≤ 15` with all touched addresses in range,
executing `StoreRegisters{n}` then `LoadIntoRegisters{n}`:
in modern mode the round-trip reproduces all registers and leaves `I`
unchanged (each instruction restores `I`); in legacy mode the store leaves
`I` advanced by `n + 1`, the load therefore reads the `n + 1` bytes at
`I0 + n + 1 .. I0 + 2n + 1` (not the stored bytes), and after the
round-trip `I` has advanced by `2(n + 1)`, not `n + 1`. -/
theorem c5_store_load_roundtrip (rb1 rb2 : Nat) (m : Interpreter) (n : Nat)
    (hram : m.ram.length = 4096) (hreg : m.variable_registers.length = 16)
    (hn : n < 16) (hbound : m.index_register + 2 * n + 2 ≤ 4096) :
    (∃ m1 m2,
      execute true rb1 m (Instruction.StoreRegisters n) = ExecResult.ok m1 ∧
      m1.index_register = m.index_register ∧
      execute true rb2 m1 (Instruction.LoadIntoRegisters n) = ExecResult.ok m2 ∧
      m2.variable_registers = m.variable_registers ∧
      m2.index_register = m.index_register) ∧
    (∃ m1 m2,
      execute false rb1 m (Instruction.StoreRegisters n) = ExecResult.ok m1 ∧
      m1.index_register = m.index_register + (n + 1) ∧
      execute false rb2 m1 (Instruction.LoadIntoRegisters n) = ExecResult.ok m2 ∧
      m2.index_register = m.index_register + 2 * (n + 1) ∧
      (∀ j, j ≤ n →
        regGet m2 j = m.ram.getD (m.index_register + (n + 1) + j) 0)) := by
  obtain ⟨ms, hsloop, hsidx, hslen, hswr, hsfr, hss, hsv, hsp, hsst, hsdt, hssnd, hsih⟩ :=
    storeRegistersLoop_spec (n + 1) 0 m hram (by intro j hj; omega)
  constructor
  · -- modern mode
    refine ⟨{ ms with index_register := m.index_register }, ?_⟩
    have hstep1 : execute true rb1 m (Instruction.StoreRegisters n) =
        ExecResult.ok { ms with index_register := m.index_register } := by
      simp only [execute, hsloop, ExecResult.andThen, if_true]
    obtain ⟨mL, hlloop, hlidx, hlram, hllen, hlwr, hlfr, hls, hlp, hlst, hldt, hlsnd, hlih⟩ :=
      loadIntoRegistersLoop_spec (n + 1) 0 { ms with index_register := m.index_register }
        (by simpa using hsv ▸ hreg) (by simp only []; intro j hj; omega)
    refine ⟨{ mL with index_register := m.index_register }, hstep1, rfl, ?_, ?_, rfl⟩
    · have hstep2 : execute true rb2 { ms with index_register := m.index_register }
          (Instruction.LoadIntoRegisters n) =
          ExecResult.ok { mL with index_register := m.index_register } := by
        simp only [execute, hlloop, ExecResult.andThen, if_true]
      exact hstep2
    · show mL.variable_registers = m.variable_registers
      have hmlen : mL.variable_registers.length = 16 := hllen
      apply List.ext_getElem (by rw [hmlen, hreg])
      intro i hi1 hi2
      have hi16 : i < 16 := by rw [hmlen] at hi1; exact hi1
      rw [← List.getD_eq_getElem mL.variable_registers 0 hi1,
        ← List.getD_eq_getElem m.variable_registers 0 hi2]
      show regGet mL i = regGet m i
      rcases Nat.lt_or_ge i (n + 1) with hin | hin
      · have hw := hlwr i (by omega) (by omega)
        simp only [Nat.zero_add] at hw
        have hram_eq : ({ ms with index_register := m.index_register } : Interpreter).ram.getD
            (({ ms with index_register := m.index_register } : Interpreter).index_register + i) 0 =
            regGet m i := by
          show ms.ram.getD (m.index_register + i) 0 = regGet m i
          have := hswr i (by omega)
          simpa using this
        rw [hw, hram_eq]
      · have hf := hlfr i (by intro j hj; omega)
        rw [hf]
        show ms.variable_registers.getD i 0 = regGet m i
        rw [hsv]
        rfl
  · -- legacy mode
    refine ⟨ms, ?_⟩
    have hstep1 : execute false rb1 m (Instruction.StoreRegisters n) = ExecResult.ok ms := by
      simp only [execute, hsloop, ExecResult.andThen, Bool.false_eq_true, if_false]
    obtain ⟨mL, hlloop, hlidx, hlram, hllen, hlwr, hlfr, hls, hlp, hlst, hldt, hlsnd, hlih⟩ :=
      loadIntoRegistersLoop_spec (n + 1) 0 ms (by rw [hsv, hreg]) (by rw [hsidx]; intro j hj; omega)
    have hstep2 : execute false rb2 ms (Instruction.LoadIntoRegisters n) = ExecResult.ok mL := by
      simp only [execute, hlloop, ExecResult.andThen, Bool.false_eq_true, if_false]
    refine ⟨mL, hstep1, hsidx, hstep2, (by rw [hlidx, hsidx]; omega), ?_⟩
    intro j hj
    have hw := hlwr j (by omega) (by omega)
    simp only [Nat.zero_add] at hw
    rw [hw, hsidx]
    have hfr := hsfr (m.index_register + (n + 1) + j) (by omega)
    rw [show m.index_register + (n + 1) + j = m.index_register + (n + 1 + j) from by omega] at hfr ⊢
    exact hfr

/-- Witness for the amended claim C5 at the concrete machine with
`V0 = 5`, `I = 0x300`, `n = 0`. -/
theorem c5_store_load_roundtrip_witness :
    (c5Machine.ram.length = 4096 ∧ c5Machine.variable_registers.length = 16 ∧
      (0 : Nat) < 16 ∧ c5Machine.index_register + 2 * 0 + 2 ≤ 4096) ∧
    (∃ m1 m2,
      execute true 0 c5Machine (Instruction.StoreRegisters 0) = ExecResult.ok m1 ∧
      m1.index_register = c5Machine.index_register ∧
      execute true 0 m1 (Instruction.LoadIntoRegisters 0) = ExecResult.ok m2 ∧
      m2.variable_registers = c5Machine.variable_registers ∧
      m2.index_register = c5Machine.index_register) :=
  ⟨⟨init_ram_length [], by decide, by decide, by decide⟩,
    (c5_store_load_roundtrip 0 0 c5Machine 0 (init_ram_length []) (by decide) (by decide)
      (by decide)).1⟩

theorem timerStates_drawRowLoop : ∀ (bits sl x y : Nat) (m : Interpreter),
    timerStates (drawRowLoop bits sl x y m) = timerStates m := by
  intro bits
  induction bits with
  | zero => intro sl x y m; rfl
  | succ bits ih =>
    intro sl x y m
    simp only [drawRowLoop]
    split
    · split
      · split <;> rfl
      · rfl
    · rw [ih]
      split
      · split <;> rfl
      · rfl

theorem timerStates_drawRows : ∀ (remaining initialX off y : Nat) (m : Interpreter),
    timerStates (drawRows initialX remaining off y m).state = timerStates m := by
  intro remaining
  induction remaining with
  | zero => intro initialX off y m; rfl
  | succ remaining ih =>
    intro initialX off y m
    simp only [drawRows]
    split
    · rfl
    · split
      · rw [ExecResult.state]
        exact timerStates_drawRowLoop 8 _ initialX y m
      · rw [ih]
        exact timerStates_drawRowLoop 8 _ initialX y m

theorem timerStates_storeRegistersLoop : ∀ (k r : Nat) (m : Interpreter),
    timerStates (storeRegistersLoop k r m).state = timerStates m := by
  intro k
  induction k with
  | zero => intro r m; rfl
  | succ k ih =>
    intro r m
    simp only [storeRegistersLoop]
    split
    · rfl
    · rw [ih]
      rfl

theorem timerStates_loadIntoRegistersLoop : ∀ (k r : Nat) (m : Interpreter),
    timerStates (loadIntoRegistersLoop k r m).state = timerStates m := by
  intro k
  induction k with
  | zero => intro r m; rfl
  | succ k ih =>
    intro r m
    simp only [loadIntoRegistersLoop]
    split
    · rfl
    · rw [ih]
      rfl

theorem timerStates_ramStore (m : Interpreter) (addr val : Nat) :
    timerStates (ramStore m addr val).state = timerStates m := by
  unfold ramStore
  split <;> rfl

theorem timerStates_andThen (res : ExecResult) (f : Interpreter → ExecResult)
    (hf : ∀ mm, timerStates (f mm).state = timerStates mm) :
    timerStates (res.andThen f).state = timerStates res.state := by
  cases res with
  | ok mm => exact hf mm
  | panic r mm => rfl

theorem timerStates_execute (modern : Bool) (rb : Nat) (m : Interpreter)
    (inst : Instruction) :
    timerStates (execute modern rb m inst).state = timerStates m := by
  cases inst
  case Return =>
    show timerStates (match m.stack with
      | [] => ExecResult.panic PanicReason.stackUnderflow m
      | a :: rest => ExecResult.ok { m with program_counter := a, stack := rest }).state
      = timerStates m
    cases m.stack <;> rfl
  case SkipEqualByte => simp only [execute]; split <;> rfl
  case SkipNotEqualByte => simp only [execute]; split <;> rfl
  case SkipEqualVariable => simp only [execute]; split <;> rfl
  case SkipNotEqualVariable => simp only [execute]; split <;> rfl
  case SkipKey => simp only [execute]; split <;> rfl
  case SkipNotKey => simp only [execute]; split <;> rfl
  case ShiftRight => simp only [execute]; split <;> rfl
  case ShiftLeft => simp only [execute]; split <;> rfl
  case Draw rx ry n =>
    show timerStates (Interpreter.draw m rx ry n).state = timerStates m
    unfold Interpreter.draw
    exact timerStates_drawRows n _ 0 _ (setVfTo m 0)
  case StoreRegisters n =>
    simp only [execute]
    have hf : ∀ mm : Interpreter,
        timerStates (ExecResult.ok (if modern = true then
          { mm with index_register := m.index_register } else mm)).state = timerStates mm := by
      intro mm
      split <;> rfl
    exact (timerStates_andThen _ _ hf).trans (timerStates_storeRegistersLoop (n + 1) 0 m)
  case LoadIntoRegisters n =>
    simp only [execute]
    have hf : ∀ mm : Interpreter,
        timerStates (ExecResult.ok (if modern = true then
          { mm with index_register := m.index_register } else mm)).state = timerStates mm := by
      intro mm
      split <;> rfl
    exact (timerStates_andThen _ _ hf).trans (timerStates_loadIntoRegistersLoop (n + 1) 0 m)
  case StoreDecimalConversion r =>
    simp only [execute]
    have hf1 : ∀ m1 : Interpreter,
        timerStates ((ramStore m1 (m1.index_register + 1)
            ((regGet m r - regGet m r / 100 * 100) / 10)).andThen fun m2 =>
          ramStore m2 (m2.index_register + 2)
            (regGet m r - regGet m r / 100 * 100 -
              (regGet m r - regGet m r / 100 * 100) / 10 * 10)).state = timerStates m1 := by
      intro m1
      exact (timerStates_andThen _ _ (fun m2 => timerStates_ramStore m2 _ _)).trans
        (timerStates_ramStore m1 _ _)
    exact (timerStates_andThen _ _ hf1).trans (timerStates_ramStore m _ _)
  all_goals rfl

theorem timerStates_step (modern : Bool) (rb : Nat) (m : Interpreter) :
    timerStates (step modern rb m).state = timerStates m := by
  have hfde : ∀ mm : Interpreter, timerStates (fetchDecodeExecute modern rb mm).state =
      timerStates mm := by
    intro mm
    unfold fetchDecodeExecute
    split
    · rfl
    · split
      · rfl
      · simp only []
        split
        · rfl
        · exact timerStates_execute modern rb _ _
  unfold step
  rcases m.input_handler.waiting with _ | r
  · exact hfde m
  · rcases m.input_handler.pressed_and_released with _ | key
    · rfl
    · exact hfde _

/-- Claim C10: a timer's lifecycle state field is never modified by any
operation except `decrement()` when the value is exactly 1 (the sole
transition, to `Zero`): construction initialises both timers with value 0
and state `AboveZero`; `reset()` changes only the value; `decrement()`
leaves the state unchanged whenever the value is not 1; every instruction
execution (including `SetDelayTimer`/`SetSoundTimer`, which assign only
the value field) and every `step()` preserve both timers' lifecycle
states; hence the state can be `AboveZero` while the value is 0 (the
freshly constructed timers) and can remain `Zero` while the value is
nonzero (exhibited by `SetDelayTimer` writing value 5 onto a zero timer
in state `Zero`). -/
theorem c10_timer_state_transitions :
    (∀ p m0, Interpreter.new p = some m0 →
      m0.delay_timer = { value := 0, state := TimerState.AboveZero } ∧
      m0.sound_timer = { value := 0, state := TimerState.AboveZero }) ∧
    (∀ t : Timer, (Timer.reset t).state = t.state) ∧
    (∀ t : Timer, t.value ≠ 1 → (Timer.decrement t).state = t.state) ∧
    (∀ t : Timer, t.value = 1 → (Timer.decrement t).state = TimerState.Zero) ∧
    (∀ (modern : Bool) (rb : Nat) (m : Interpreter) (inst : Instruction),
      timerStates (execute modern rb m inst).state = timerStates m) ∧
    (∀ (modern : Bool) (rb : Nat) (m : Interpreter),
      timerStates (step modern rb m).state = timerStates m) ∧
    (execute true 0 c10Machine (Instruction.SetDelayTimer 1)).state.delay_timer
      = { value := 5, state := TimerState.Zero } := by
  refine ⟨?_, ?_, ?_, ?_, ?_, ?_, ?_⟩
  · intro p m0 h
    unfold Interpreter.new at h
    split at h
    · cases h
      exact ⟨rfl, rfl⟩
    · simp at h
  · intro t
    obtain ⟨v, s⟩ := t
    rfl
  · intro t h
    obtain ⟨v, s⟩ := t
    rcases v with _ | v2
    · rfl
    rcases v2 with _ | v3
    · exact absurd rfl h
    · rfl
  · intro t h
    obtain ⟨v, s⟩ := t
    have h2 : v = 1 := h
    subst h2
    rfl
  · exact timerStates_execute
  · exact timerStates_step
  · decide

/-- Witness for claim C10: construction of the empty-program machine, and
a decrement at value 5 preserving the state. -/
theorem c10_timer_state_transitions_witness :
    Interpreter.new [] = some (Interpreter.init []) ∧
    ((Interpreter.init []).delay_timer = { value := 0, state := TimerState.AboveZero } ∧
      (Interpreter.init []).sound_timer = { value := 0, state := TimerState.AboveZero }) ∧
    ({ value := 5, state := TimerState.AboveZero } : Timer).value ≠ 1 ∧
    (Timer.decrement { value := 5, state := TimerState.AboveZero }).state =
      ({ value := 5, state := TimerState.AboveZero } : Timer).state :=
  ⟨rfl, c10_timer_state_transitions.1 [] (Interpreter.init []) rfl,
    by decide, c10_timer_state_transitions.2.2.1 { value := 5, state := TimerState.AboveZero }
      (by decide)⟩

theorem mask6_eq (op : Nat) : op &&& 63 = op % 64 := by
  have h := and_mask_shiftr op 0 6
  norm_num at h
  exact h

theorem mask5_eq (op : Nat) : op &&& 31 = op % 32 := by
  have h := and_mask_shiftr op 0 5
  norm_num at h
  exact h

theorem togglePixel_screen_len (m : Interpreter) (i : Nat) :
    (togglePixel m i).screen.length = m.screen.length := by
  unfold togglePixel
  split <;> simp [setVfTo, List.length_set]

theorem togglePixel_getD_ne (m : Interpreter) (i j : Nat) (h : i ≠ j) :
    (togglePixel m i).screen.getD j false = m.screen.getD j false := by
  unfold togglePixel
  split <;> exact list_getD_set_ne _ _ _ _ _ h

theorem togglePixel_getD_eq (m : Interpreter) (i : Nat) (h : i < m.screen.length) :
    (togglePixel m i).screen.getD i false = !(m.screen.getD i false) := by
  unfold togglePixel
  split <;> exact list_getD_set_eq _ _ _ _ h

theorem togglePixel_vregs (m : Interpreter) (i : Nat) :
    (togglePixel m i).variable_registers =
      if m.screen.getD i false then m.variable_registers.set 15 1
      else m.variable_registers := by
  unfold togglePixel
  split <;> simp [setVfTo]

theorem drawRowLoop_step_cont (bits sl x y : Nat) (m : Interpreter)
    (hbit : sl &&& 2 ^ bits ≠ 0) (hx : x ≠ 63) :
    drawRowLoop (bits + 1) sl x y m =
      drawRowLoop bits sl (x + 1) y (togglePixel m (y * 64 + x)) := by
  simp only [drawRowLoop, togglePixel]
  rw [if_pos hbit, if_neg (by simpa using hx)]

theorem drawRowLoop_step_last (bits sl y : Nat) (m : Interpreter)
    (hbit : sl &&& 2 ^ bits ≠ 0) :
    drawRowLoop (bits + 1) sl 63 y m = togglePixel m (y * 64 + 63) := by
  simp only [drawRowLoop, togglePixel]
  rw [if_pos hbit, if_pos (show ((63 : Nat) == 63) = true from rfl)]

/-- Drawing the full-byte sprite 0b11111111 starting at column 62 toggles
exactly the two pixels at columns 62 and 63 of the row: the remaining six
bits are clipped. -/
theorem drawRowLoop_8_255_62 (y : Nat) (m : Interpreter) :
    drawRowLoop 8 255 62 y m =
      togglePixel (togglePixel m (y * 64 + 62)) (y * 64 + 63) := by
  have h1 := drawRowLoop_step_cont 7 255 62 y m (by decide) (by norm_num)
  have h2 := drawRowLoop_step_last 6 255 y (togglePixel m (y * 64 + 62)) (by decide)
  exact h1.trans h2

theorem drawRowLoop_screen_frame : ∀ (bits sl x y : Nat) (m : Interpreter) (idx : Nat),
    x ≤ 63 → (idx / 64 ≠ y ∨ idx % 64 < x) →
    (drawRowLoop bits sl x y m).screen.getD idx false = m.screen.getD idx false := by
  intro bits
  induction bits with
  | zero => intro sl x y m idx hx h; rfl
  | succ bits ih =>
    intro sl x y m idx hx h
    have hne : y * 64 + x ≠ idx := by
      rcases h with h | h
      · intro he
        apply h
        omega
      · intro he
        omega
    simp only [drawRowLoop]
    split
    · split
      · split
        · show ((m.screen.set (y * 64 + x) _).getD idx false) = _
          exact list_getD_set_ne _ _ _ _ _ hne
        · show ((m.screen.set (y * 64 + x) _).getD idx false) = _
          exact list_getD_set_ne _ _ _ _ _ hne
      · rfl
    · rename_i hx63
      have hx2 : x + 1 ≤ 63 := by
        have : x ≠ 63 := by simpa using hx63
        omega
      rw [ih sl (x + 1) y _ idx hx2 (by omega)]
      split
      · split
        · show ((m.screen.set (y * 64 + x) _).getD idx false) = _
          exact list_getD_set_ne _ _ _ _ _ hne
        · show ((m.screen.set (y * 64 + x) _).getD idx false) = _
          exact list_getD_set_ne _ _ _ _ _ hne
      · rfl

theorem drawRows_screen_frame : ∀ (remaining initialX off y : Nat) (m : Interpreter)
    (idx : Nat), initialX ≤ 63 →
    (idx / 64 < y ∨ y + remaining ≤ idx / 64 ∨ idx % 64 < initialX) →
    (drawRows initialX remaining off y m).state.screen.getD idx false =
      m.screen.getD idx false := by
  intro remaining
  induction remaining with
  | zero => intro initialX off y m idx hx h; rfl
  | succ remaining ih =>
    intro initialX off y m idx hx h
    have hrow : ∀ mm : Interpreter,
        (drawRowLoop 8 (mm.ram.getD ((mm.index_register + off) % 65536) 0) initialX y
          mm).screen.getD idx false = mm.screen.getD idx false := by
      intro mm
      exact drawRowLoop_screen_frame 8 _ initialX y mm idx hx (by omega)
    simp only [drawRows]
    split
    · rfl
    · split
      · rw [ExecResult.state]
        exact hrow m
      · rw [ih initialX (off + 1) (y + 1) _ idx hx (by omega)]
        exact hrow m

theorem togglePixel_ram (m : Interpreter) (i : Nat) : (togglePixel m i).ram = m.ram := by
  unfold togglePixel
  split <;> rfl

theorem togglePixel_index (m : Interpreter) (i : Nat) :
    (togglePixel m i).index_register = m.index_register := by
  unfold togglePixel
  split <;> rfl

theorem togglePixel_pc (m : Interpreter) (i : Nat) :
    (togglePixel m i).program_counter = m.program_counter := by
  unfold togglePixel
  split <;> rfl

/-- A row drawn at `y = 31` is the last row: the outer loop breaks
(vertical clipping) whatever the remaining row count. -/
theorem drawRows_break31 (remaining initialX off : Nat) (m : Interpreter)
    (hI : (m.index_register + off) % 65536 < 4096) :
    drawRows initialX (remaining + 1) off 31 m =
      ExecResult.ok
        (drawRowLoop 8 (m.ram.getD ((m.index_register + off) % 65536) 0) initialX 31 m) := by
  simp only [drawRows]
  rw [if_neg (by omega), if_pos (show ((31 : Nat) == 31) = true from rfl)]

theorem setVfTo_screen (m : Interpreter) (v : Nat) : (setVfTo m v).screen = m.screen := rfl

theorem setVfTo_ram (m : Interpreter) (v : Nat) : (setVfTo m v).ram = m.ram := rfl

theorem setVfTo_index (m : Interpreter) (v : Nat) :
    (setVfTo m v).index_register = m.index_register := rfl

theorem setVfTo_pc (m : Interpreter) (v : Nat) :
    (setVfTo m v).program_counter = m.program_counter := rfl

/-- **C4**: `Draw{rx, ry, n}` starts at `x0 = Vx mod 64`, `y0 = Vy mod 32`
(wrapping only at the start position) and clips: pixels in rows below
`y0` or at/above `y0 + n`, or in columns left of `x0`, are never touched
(first conjunct, covering panicking executions via `.state`).  Drawing the
one-byte sprite `0b11111111` (all eight bits set) with `x0 = 62`, `y0 = 0`,
`n = 1` toggles (XORs) exactly the two pixels in columns 62 and 63 of row 0
— the remaining six bits are clipped at `x = 63` — and VF, cleared first,
ends up 1 exactly when a toggled pixel was previously set (second
conjunct); the same sprite with `y0 = 31`, `n = 3` touches only row 31 —
the remaining rows are clipped at `y = 31` (third conjunct). -/
theorem c4_draw_clipping (modern : Bool) (rb : Nat) :
    (∀ (m : Interpreter) (rx ry n idx : Nat),
      (idx / 64 < regGet m ry % 32 ∨ regGet m ry % 32 + n ≤ idx / 64 ∨
        idx % 64 < regGet m rx % 64) →
      ((execute modern rb m (Instruction.Draw rx ry n)).state).screen.getD idx false =
        m.screen.getD idx false) ∧
    (∀ m : Interpreter, m.screen.length = 2048 → m.variable_registers.length = 16 →
      regGet m 0 % 64 = 62 → regGet m 1 % 32 = 0 →
      m.index_register < 4096 → m.ram.getD m.index_register 0 = 255 →
      ∃ m2, execute modern rb m (Instruction.Draw 0 1 1) = ExecResult.ok m2 ∧
        (∀ idx, idx < 2048 →
          m2.screen.getD idx false =
            if idx = 62 ∨ idx = 63 then !(m.screen.getD idx false)
            else m.screen.getD idx false) ∧
        regGet m2 15 =
          (if m.screen.getD 62 false || m.screen.getD 63 false then 1 else 0) ∧
        m2.ram = m.ram ∧ m2.index_register = m.index_register ∧
        m2.program_counter = m.program_counter) ∧
    (∀ m : Interpreter, m.screen.length = 2048 →
      regGet m 0 % 64 = 62 → regGet m 1 % 32 = 31 →
      m.index_register < 4096 → m.ram.getD m.index_register 0 = 255 →
      ∃ m2, execute modern rb m (Instruction.Draw 0 1 3) = ExecResult.ok m2 ∧
        ∀ idx, idx < 2048 →
          m2.screen.getD idx false =
            if idx = 2046 ∨ idx = 2047 then !(m.screen.getD idx false)
            else m.screen.getD idx false) := by
  refine ⟨?_, ?_, ?_⟩
  · intro m rx ry n idx h
    have he : execute modern rb m (Instruction.Draw rx ry n) = Interpreter.draw m rx ry n := rfl
    rw [he]
    unfold Interpreter.draw
    simp only []
    rw [mask6_eq, mask5_eq]
    exact drawRows_screen_frame n (regGet m rx % 64) 0 (regGet m ry % 32)
      (setVfTo m 0) idx (by omega) h
  · intro m hslen hrlen hx hy hIlt hsprite
    have he : execute modern rb m (Instruction.Draw 0 1 1) = Interpreter.draw m 0 1 1 := rfl
    rw [he]
    unfold Interpreter.draw
    simp only []
    rw [mask6_eq, mask5_eq, hx, hy]
    simp only [drawRows]
    rw [setVfTo_index, setVfTo_ram]
    rw [show (m.index_register + 0) % 65536 = m.index_register from by omega]
    rw [if_neg (show ¬ m.index_register ≥ 4096 from by omega)]
    rw [if_neg (show ¬ ((0 : Nat) == 31) = true from by decide)]
    rw [hsprite, drawRowLoop_8_255_62]
    rw [show (0 : Nat) * 64 + 62 = 62 from rfl, show (0 : Nat) * 64 + 63 = 63 from rfl]
    refine ⟨_, rfl, ?_, ?_, ?_, ?_, ?_⟩
    · intro idx hidx
      by_cases h62 : idx = 62
      · subst h62
        rw [togglePixel_getD_ne _ 63 62 (by omega)]
        rw [togglePixel_getD_eq _ 62 (by rw [setVfTo_screen, hslen]; omega)]
        rw [setVfTo_screen]
        simp
      · by_cases h63 : idx = 63
        · subst h63
          rw [togglePixel_getD_eq _ 63
            (by rw [togglePixel_screen_len, setVfTo_screen, hslen]; omega)]
          rw [togglePixel_getD_ne _ 62 63 (by omega), setVfTo_screen]
          simp
        · rw [togglePixel_getD_ne _ 63 idx (by omega),
            togglePixel_getD_ne _ 62 idx (by omega), setVfTo_screen]
          simp [h62, h63]
    · have e1 : (togglePixel (setVfTo m 0) 62).screen.getD 63 false =
          m.screen.getD 63 false := by
        rw [togglePixel_getD_ne _ 62 63 (by omega), setVfTo_screen]
      have h15 : 15 < m.variable_registers.length := by omega
      unfold regGet
      rw [togglePixel_vregs, e1, togglePixel_vregs, setVfTo_screen, setVfTo_vregs]
      cases hc2 : m.screen.getD 63 false <;> cases hc1 : m.screen.getD 62 false <;>
        simp only [hc1, hc2, Bool.false_eq_true, if_false, if_true,
          Bool.false_or, Bool.or_false, Bool.true_or, Bool.or_true, Bool.or_self]
      · exact list_getD_set_eq _ _ _ _ h15
      · exact list_getD_set_eq _ _ _ _ (by rw [List.length_set]; omega)
      · exact list_getD_set_eq _ _ _ _ (by rw [List.length_set]; omega)
      · exact list_getD_set_eq _ _ _ _ (by rw [List.length_set, List.length_set]; omega)
    · rw [togglePixel_ram, togglePixel_ram, setVfTo_ram]
    · rw [togglePixel_index, togglePixel_index, setVfTo_index]
    · rw [togglePixel_pc, togglePixel_pc, setVfTo_pc]
  · intro m hslen hx hy hIlt hsprite
    have he : execute modern rb m (Instruction.Draw 0 1 3) = Interpreter.draw m 0 1 3 := rfl
    rw [he]
    unfold Interpreter.draw
    simp only []
    rw [mask6_eq, mask5_eq, hx, hy]
    rw [show drawRows 62 3 0 31 (setVfTo m 0) =
        ExecResult.ok
          (drawRowLoop 8
            ((setVfTo m 0).ram.getD (((setVfTo m 0).index_register + 0) % 65536) 0)
            62 31 (setVfTo m 0)) from
      drawRows_break31 2 62 0 (setVfTo m 0) (by rw [setVfTo_index]; omega)]
    rw [setVfTo_index, setVfTo_ram]
    rw [show (m.index_register + 0) % 65536 = m.index_register from by omega]
    rw [hsprite, drawRowLoop_8_255_62]
    rw [show (31 : Nat) * 64 + 62 = 2046 from rfl, show (31 : Nat) * 64 + 63 = 2047 from rfl]
    refine ⟨_, rfl, ?_⟩
    intro idx hidx
    by_cases h62 : idx = 2046
    · subst h62
      rw [togglePixel_getD_ne _ 2047 2046 (by omega)]
      rw [togglePixel_getD_eq _ 2046 (by rw [setVfTo_screen, hslen]; omega)]
      rw [setVfTo_screen]
      simp
    · by_cases h63 : idx = 2047
      · subst h63
        rw [togglePixel_getD_eq _ 2047
          (by rw [togglePixel_screen_len, setVfTo_screen, hslen]; omega)]
        rw [togglePixel_getD_ne _ 2046 2047 (by omega), setVfTo_screen]
        simp
      · rw [togglePixel_getD_ne _ 2047 idx (by omega),
          togglePixel_getD_ne _ 2046 idx (by omega), setVfTo_screen]
        simp [h62, h63]

theorem c4_draw_clipping_witness :
    ∃ m2, execute true 0 c4Machine (Instruction.Draw 0 1 1) = ExecResult.ok m2 ∧
      (∀ idx, idx < 2048 →
        m2.screen.getD idx false =
          if idx = 62 ∨ idx = 63 then !(c4Machine.screen.getD idx false)
          else c4Machine.screen.getD idx false) ∧
      regGet m2 15 =
        (if c4Machine.screen.getD 62 false || c4Machine.screen.getD 63 false then 1 else 0) ∧
      m2.ram = c4Machine.ram ∧ m2.index_register = c4Machine.index_register ∧
      m2.program_counter = c4Machine.program_counter :=
  (c4_draw_clipping true 0).2.1 c4Machine
    (by simp [c4Machine]) (by simp [c4Machine]) (by decide) (by decide)
    (by decide) (by decide)

end Chippers

